import Mathlib

/-!
Verification development for the Presentation-Builder core: value
formatting (src/schema/design_system.py), the schema model and its
dict-based construction (src/schema/models.py), chart data building
(src/generator/charts.py), document rendering
(src/generator/pptx_builder.py) and QA validation (src/qa/validator.py),
translated into a shallow embedding.

Modelling conventions:
- Python floats are modelled as exact rationals extended with nan and the
  two signed infinities; decimal string formatting rounds half-to-even on
  the rational value (CPython rounds on the underlying binary double, so
  the two agree except on representation-boundary ties, which no statement
  below exercises).
- Python values that can appear in a data payload are modelled by the
  inductive `Value` (None, numbers, strings, lists, dicts).
- Fallible Python operations (raising TypeError, KeyError, IndexError,
  OverflowError, ValueError, AttributeError) are modelled with `Except`.
- Dict fields are narrowed to the dataclass annotations of the source:
  a dynamically ill-typed field is modelled as a type error.
-/

namespace PB

/-- Python exception kinds raised by the modelled code paths. -/
inductive PyErr
  | typeError
  | valueError
  | keyError
  | indexError
  | overflowError
  | attributeError
  deriving DecidableEq

/-- Round the fraction n / d (with d positive) to the nearest integer,
ties to even: the rounding CPython string formatting applies.  Stated on
a numerator and denominator so it evaluates by integer arithmetic. -/
def roundHalfEvenScaled (n d : ℤ) : ℤ :=
  let f : ℤ := n.fdiv d
  let r2 : ℤ := 2 * (n - f * d)
  if r2 < d then f
  else if d < r2 then f + 1
  else if f % 2 = 0 then f else f + 1

/-- Round a rational to the nearest integer, ties to even. -/
def roundHalfEven (q : ℚ) : ℤ :=
  roundHalfEvenScaled q.num (q.den : ℤ)

/-- Absolute value of a rational, built with mkRat so it evaluates. -/
def ratAbs (q : ℚ) : ℚ :=
  mkRat (Int.ofNat q.num.natAbs) q.den

/-- Exact division of a rational by a positive natural, via mkRat. -/
def ratDivNat (q : ℚ) (c : ℕ) : ℚ :=
  mkRat q.num (q.den * c)

/-- Insert a comma after every third character of a reversed digit list. -/
def group3 : List Char → List Char
  | [] => []
  | [a] => [a]
  | [a, b] => [a, b]
  | [a, b, c] => [a, b, c]
  | a :: b :: c :: rest => a :: b :: c :: (Char.ofNat 44) :: group3 rest

/-- Comma-group the decimal digits of a natural in threes, as Python
thousands grouping does. -/
def commaGroup (n : ℕ) : String :=
  String.mk ((group3 (toString n).data.reverse).reverse)

/-- Python formatting with one decimal digit on a finite value
(the rounding of q * 10 is taken on the numerator). -/
def fmtFixed1 (q : ℚ) : String :=
  let n := roundHalfEvenScaled (q.num * 10) (q.den : ℤ)
  (if n < 0 then "-" else "") ++ toString (n.natAbs / 10) ++ "." ++ toString (n.natAbs % 10)

/-- Python formatting with zero decimals and thousands grouping. -/
def fmtComma0 (q : ℚ) : String :=
  let n := roundHalfEven q
  (if n < 0 then "-" else "") ++ commaGroup n.natAbs

/-- Truncate a rational toward zero, as Python int() does on a float. -/
def ratTrunc (q : ℚ) : ℤ :=
  q.num.tdiv (q.den : ℤ)

/-- Prefix test on character lists. -/
def listPrefixOf : List Char → List Char → Bool
  | [], _ => true
  | _ :: _, [] => false
  | a :: as, b :: bs => a == b && listPrefixOf as bs

/-- Infix test on character lists. -/
def listInfixOf (sub : List Char) : List Char → Bool
  | [] => sub.isEmpty
  | b :: rest => listPrefixOf sub (b :: rest) || listInfixOf sub rest

/-- Python str.endswith, on the character list so it evaluates. -/
def strEndsWith (s suffix : String) : Bool :=
  listPrefixOf suffix.data.reverse s.data.reverse

/-- Python slicing s[:-n], on the character list so it evaluates. -/
def strDropRight (s : String) (n : ℕ) : String :=
  String.mk (s.data.take (s.data.length - n))

/-- Python slicing s[:n]. -/
def strTake (s : String) (n : ℕ) : String :=
  String.mk (s.data.take n)

/-- Whether sub occurs inside s, the Python in-operator on strings. -/
def strContains (s sub : String) : Bool :=
  listInfixOf sub.data s.data

/-- Python str.strip(): remove surrounding whitespace. -/
def strStrip (s : String) : String :=
  let ws := fun c => c == ' ' || c == Char.ofNat 9 || c == Char.ofNat 10 || c == Char.ofNat 13
  String.mk ((s.data.dropWhile ws).reverse.dropWhile ws |>.reverse)

/-- Python str.lstrip(c): remove every leading occurrence of c. -/
def strLStrip (s : String) (c : Char) : String :=
  String.mk (s.data.dropWhile (fun x => x == c))

/-- Python str.upper() restricted to ASCII, as hex color strings are. -/
def strUpper (s : String) : String :=
  String.mk (s.data.map (fun c =>
    if c.toNat ≥ 97 && c.toNat ≤ 122 then Char.ofNat (c.toNat - 32) else c))

/-- A Python float or int: finite values are exact rationals. -/
inductive PyFloat
  | nan
  | inf
  | ninf
  | fin (q : ℚ)
  deriving DecidableEq

/-- Python abs() on a numeric value. -/
def pyAbs : PyFloat → PyFloat
  | .nan => .nan
  | .inf => .inf
  | .ninf => .inf
  | .fin q => .fin (ratAbs q)

/-- Python comparison value < 0. -/
def pyLtZ : PyFloat → Bool
  | .ninf => true
  | .fin q => decide (q < 0)
  | _ => false

/-- Python comparison 0 < value. -/
def pyGtZ : PyFloat → Bool
  | .inf => true
  | .fin q => decide (0 < q)
  | _ => false

/-- Python comparison value < c for a finite literal c. -/
def pyLtC : PyFloat → ℚ → Bool
  | .nan, _ => false
  | .inf, _ => false
  | .ninf, _ => true
  | .fin q, c => decide (q < c)

/-- Python division by a positive integer literal. -/
def pyDivC : PyFloat → ℕ → PyFloat
  | .nan, _ => .nan
  | .inf, _ => .inf
  | .ninf, _ => .ninf
  | .fin q, c => .fin (ratDivNat q c)

/-- Python one-decimal formatting of a float, infinities included. -/
def pyFmt1 : PyFloat → String
  | .nan => "nan"
  | .inf => "inf"
  | .ninf => "-inf"
  | .fin q => fmtFixed1 q

/-- Python zero-decimal comma-grouped formatting of a float. -/
def pyFmtComma0 : PyFloat → String
  | .nan => "nan"
  | .inf => "inf"
  | .ninf => "-inf"
  | .fin q => fmtComma0 q

/-- Expand the fractional digits of r/d (0 <= r < d) with bounded fuel. -/
def fracDigits : ℕ → ℕ → ℕ → String
  | 0, _, _ => ""
  | fuel+1, r, d =>
    if r = 0 then ""
    else toString (r * 10 / d) ++ fracDigits fuel (r * 10 % d) d

/-- Python str() of a finite numeric value (exact rationals stand in for
binary doubles, whose decimal expansions terminate). -/
def ratStr (q : ℚ) : String :=
  if q.den = 1 then toString q.num
  else
    let sign := if q.num < 0 then "-" else ""
    sign ++ toString (q.num.natAbs / q.den) ++ "." ++ fracDigits 64 (q.num.natAbs % q.den) q.den

/-- Python str() of a float or int. -/
def pyFloatStr : PyFloat → String
  | .nan => "nan"
  | .inf => "inf"
  | .ninf => "-inf"
  | .fin q => ratStr q

/-- A Python object appearing in payloads: None, a number, a string,
a list, or a string-keyed dict. -/
inductive Value
  | none
  | num (x : PyFloat)
  | str (s : String)
  | list (l : List Value)
  | dict (d : List (String × Value))

/-- Python repr() of a payload value, with a nesting-depth fuel so the
recursion is structural (payload values in this program are shallow, so
the fuel is never exhausted in practice). -/
def pyReprFuel : ℕ → Value → String
  | _, .none => "None"
  | _, .num x => pyFloatStr x
  | _, .str s => "\x27" ++ s ++ "\x27"
  | 0, .list _ => "[...]"
  | 0, .dict _ => "\x7b...\x7d"
  | fuel+1, .list l =>
    "[" ++ String.intercalate ", " (l.map (pyReprFuel fuel)) ++ "]"
  | fuel+1, .dict d =>
    "\x7b" ++ String.intercalate ", "
      (d.map (fun kv => "\x27" ++ kv.1 ++ "\x27: " ++ pyReprFuel fuel kv.2)) ++ "\x7d"

/-- Python repr() of a payload value. -/
def pyRepr (v : Value) : String := pyReprFuel 1000 v

/-- Python str() of a payload value. -/
def pyStr : Value → String
  | .str s => s
  | v => pyRepr v

/-- Python truthiness of a payload value. -/
def Value.truthy : Value → Bool
  | .none => false
  | .num .nan => true
  | .num .inf => true
  | .num .ninf => true
  | .num (.fin q) => q != 0
  | .str s => s != ""
  | .list l => !l.isEmpty
  | .dict d => !d.isEmpty

/-- Whether the value is the Python None object. -/
def Value.isNone : Value → Bool
  | .none => true
  | _ => false

/-- Python len() of a payload value. -/
def pyLen : Value → Except PyErr ℕ
  | .str s => .ok s.length
  | .list l => .ok l.length
  | .dict d => .ok d.length
  | _ => .error .typeError

/-- Python list()/tuple()/iteration over a payload value: lists yield
their items, strings their characters, dicts their keys. -/
def pyList : Value → Except PyErr (List Value)
  | .list l => .ok l
  | .str s => .ok (s.data.map (fun c => Value.str (String.singleton c)))
  | .dict d => .ok (d.map (fun kv => Value.str kv.1))
  | _ => .error .typeError

/-- Python dict .get(key) on a payload value (None when absent);
raises AttributeError on a non-dict. -/
def pyDictGet : Value → String → Except PyErr Value
  | .dict d, k => .ok ((List.lookup k d).getD Value.none)
  | _, _ => .error .attributeError

/-- A flat data payload: a string-keyed Python dict. -/
abbrev Payload := List (String × Value)

/-- payload.get(key): the stored value, or None when the key is absent
(Python does not distinguish a stored None from an absent key here). -/
def Payload.getv (p : Payload) (k : String) : Value :=
  (List.lookup k p).getD Value.none

/-- The missing-value test used throughout the source:
value is None, or it is a float NaN. -/
def is_missing : Value → Bool
  | .none => true
  | .num .nan => true
  | _ => false

/-- How to format a numeric value for display (models.FormatType). -/
inductive FormatType
  | currency
  | percentage
  | variance_percentage
  | points_change
  | number
  | text
  | integer
  deriving DecidableEq

/-- Embeds design_system._format_currency, which the module assigns over
the initial format_currency attempt, so it is the effective
format_currency: tiered dollar abbreviation with the 999,950 k-tier
cutoff. -/
def format_currency (value : Value) : Except PyErr String :=
  if is_missing value then .ok "N/A"
  else match value with
    | .num x =>
      let v := pyAbs x
      let sign := if pyLtZ x then "-" else ""
      if pyLtC v 1000 then .ok (sign ++ "$" ++ pyFmtComma0 v)
      else if pyLtC v 999950 then
        let k := pyDivC v 1000
        let formatted := pyFmt1 k
        let formatted := if strEndsWith formatted ".0" then strDropRight formatted 2 else formatted
        .ok (sign ++ "$" ++ formatted ++ "k")
      else
        let m := pyDivC v 1000000
        .ok (sign ++ "$" ++ pyFmt1 m ++ "m")
    | _ => .error .typeError

/-- Embeds design_system.format_percentage. -/
def format_percentage (value : Value) : Except PyErr String :=
  if is_missing value then .ok "N/A"
  else match value with
    | .num x => .ok (pyFmt1 x ++ "%")
    | .str _ => .error .valueError
    | _ => .error .typeError

/-- Embeds design_system.format_variance_percentage. -/
def format_variance_percentage (value : Value) : Except PyErr String :=
  if is_missing value then .ok "N/A"
  else match value with
    | .num x =>
      let sign := if pyGtZ x then "+" else ""
      .ok (sign ++ pyFmt1 x ++ "%")
    | _ => .error .typeError

/-- Embeds design_system.format_points_change. -/
def format_points_change (value : Value) : Except PyErr String :=
  if is_missing value then .ok "N/A"
  else match value with
    | .num x =>
      let sign := if pyGtZ x then "+" else ""
      .ok (sign ++ pyFmt1 x ++ " ppts")
    | _ => .error .typeError

/-- Embeds design_system.format_number. -/
def format_number (value : Value) : Except PyErr String :=
  if is_missing value then .ok "N/A"
  else match value with
    | .num x =>
      let v := pyAbs x
      let sign := if pyLtZ x then "-" else ""
      if pyLtC v 1000 then .ok (sign ++ pyFmtComma0 v)
      else if pyLtC v 1000000 then .ok (sign ++ pyFmtComma0 v)
      else .ok (sign ++ pyFmt1 (pyDivC v 1000000) ++ "m")
    | _ => .error .typeError

/-- Embeds design_system.format_integer; int() overflows on infinities. -/
def format_integer (value : Value) : Except PyErr String :=
  if is_missing value then .ok "N/A"
  else match value with
    | .num (.fin q) =>
      let n := ratTrunc q
      .ok ((if n < 0 then "-" else "") ++ commaGroup n.natAbs)
    | .num .inf => .error .overflowError
    | .num .ninf => .error .overflowError
    | .num .nan => .error .valueError
    | .str s =>
      match s.toInt? with
      | some n => .ok ((if n < 0 then "-" else "") ++ commaGroup n.natAbs)
      | Option.none => .error .valueError
    | _ => .error .typeError

/-- Embeds design_system.format_value: strings are returned verbatim,
otherwise dispatch on the format kind. -/
def format_value (value : Value) (format_type : FormatType) : Except PyErr String :=
  match value with
  | .str s => .ok s
  | v =>
    match format_type with
    | .currency => format_currency v
    | .percentage => format_percentage v
    | .variance_percentage => format_variance_percentage v
    | .points_change => format_points_change v
    | .number => format_number v
    | .integer => format_integer v
    | .text => .ok (match v with | .none => "N/A" | w => pyStr w)

/-- Embeds design_system.variance_color: neutral for missing, positive for
a strictly positive value, negative for a strictly negative one.  The
Python comparisons raise on non-numeric values. -/
def variance_color (value : Value) (positive negative neutral : String) :
    Except PyErr String :=
  if is_missing value then .ok neutral
  else match value with
    | .num x =>
      if pyGtZ x then .ok positive
      else if pyLtZ x then .ok negative
      else .ok neutral
    | _ => .error .typeError

/-- What kind of content a data slot holds (models.SlotType). -/
inductive SlotType
  | kpi_value
  | table
  | chart
  | text
  | static
  | image
  | section_divider
  deriving DecidableEq

/-- Supported chart types (models.ChartType). -/
inductive ChartType
  | column_clustered
  | doughnut
  | doughnut_exploded
  | line
  deriving DecidableEq

/-- Role of a slide in the presentation (models.SlideType). -/
inductive SlideType
  | cover
  | toc
  | divider
  | data
  | manual
  deriving DecidableEq

/-- Shape position and dimensions in inches (models.Position). -/
structure Position where
  left : ℚ
  top : ℚ
  width : ℚ
  height : ℚ
  deriving DecidableEq

/-- Typography specification (models.FontSpec). -/
structure FontSpec where
  name : String := "DM Sans"
  size_pt : ℚ := 14
  bold : Bool := false
  italic : Bool := false
  color : String := "#000000"
  deriving DecidableEq

/-- How to format and color a data value (models.FormatRule). -/
structure FormatRule where
  format_type : FormatType
  positive_color : String := "#00AA00"
  negative_color : String := "#CC0000"
  neutral_color : String := "#000000"
  deriving DecidableEq

/-- Definition of a single column in a data table (models.TableColumn). -/
structure TableColumn where
  header : String
  data_key : String
  width_inches : Option ℚ := Option.none
  format_rule : Option FormatRule := Option.none
  font : Option FontSpec := Option.none
  alignment : String := "left"
  deriving DecidableEq

/-- Configuration for a single chart series (models.ChartSeries). -/
structure ChartSeries where
  name : String
  data_key : String
  color : Option String := Option.none
  deriving DecidableEq

/-- A single addressable location on a slide (models.DataSlot). -/
structure DataSlot where
  name : String
  slot_type : SlotType
  data_key : String
  position : Position
  font : Option FontSpec := Option.none
  format_rule : Option FormatRule := Option.none
  label : Option String := Option.none
  variance_key : Option String := Option.none
  columns : List TableColumn := []
  row_data_key : Option String := Option.none
  chart_type : Option ChartType := Option.none
  series : List ChartSeries := []
  categories_key : Option String := Option.none
  shape_name : Option String := Option.none
  deriving DecidableEq

/-- Schema for a single slide (models.SlideSchema). -/
structure SlideSchema where
  index : ℤ
  name : String
  title : String
  slide_type : SlideType
  data_source : String
  layout : String := "Title Only"
  slots : List DataSlot := []
  is_static : Bool := false
  deriving DecidableEq

/-- Brand design system (models.DesignSystem). -/
structure DesignSystem where
  brand_blue : String := "#0065E0"
  dark_text : String := "#000000"
  white : String := "#FFFFFF"
  dark_blue : String := "#190263"
  dark_grey : String := "#1C2B33"
  accent_green : String := "#00E167"
  positive : String := "#00AA00"
  negative : String := "#CC0000"
  light_gray : String := "#D1D5DB"
  divider_bg : String := "#0065E0"
  primary_font : String := "DM Sans"
  title_size_pt : ℚ := 36
  header_size_pt : ℚ := 24
  body_size_pt : ℚ := 14
  kpi_number_size_pt : ℚ := 48
  kpi_label_size_pt : ℚ := 12
  caption_size_pt : ℚ := 9
  deriving DecidableEq

/-- Complete schema for a presentation template (models.TemplateSchema). -/
structure TemplateSchema where
  name : String
  report_type : String
  width_inches : ℚ
  height_inches : ℚ
  design : DesignSystem
  slides : List SlideSchema
  naming_convention : String := ""
  deriving DecidableEq

/-- Look up a slide by machine name (TemplateSchema.get_slide). -/
def TemplateSchema.get_slide (t : TemplateSchema) (name : String) : Option SlideSchema :=
  t.slides.find? (fun s => s.name == name)

/-- Only slides that require data binding (TemplateSchema.data_slides). -/
def TemplateSchema.data_slides (t : TemplateSchema) : List SlideSchema :=
  t.slides.filter (fun s => !s.is_static)

/-- The data keys of a single slot, in the collection order used by the
source (data key, then variance, row-data, categories and series keys,
the optional ones only when truthy). -/
def slot_keys (slot : DataSlot) : List String :=
  [slot.data_key]
  ++ (match slot.variance_key with | some k => if k != "" then [k] else [] | Option.none => [])
  ++ (match slot.row_data_key with | some k => if k != "" then [k] else [] | Option.none => [])
  ++ (match slot.categories_key with | some k => if k != "" then [k] else [] | Option.none => [])
  ++ slot.series.map (fun s => s.data_key)

/-- Every data key referenced across all slots, column keys included;
the Python set is modelled as a duplicate-free list
(TemplateSchema.all_data_keys). -/
def TemplateSchema.all_data_keys (t : TemplateSchema) : List String :=
  ((t.slides.map (fun sl => (sl.slots.map (fun slot =>
      slot_keys slot ++ slot.columns.map (fun c => c.data_key))).flatten)).flatten).dedup

/-- A JSON-like Python dict value, the input of the from_dict
constructors. -/
inductive J
  | null
  | b (v : Bool)
  | n (q : ℚ)
  | s (v : String)
  | arr (l : List J)
  | obj (o : List (String × J))

/-- Python truthiness of a dict value. -/
def J.truthy : J → Bool
  | .null => false
  | .b v => v
  | .n q => q != 0
  | .s v => v != ""
  | .arr l => !l.isEmpty
  | .obj o => !o.isEmpty

/-- Python d[key]: KeyError when absent, TypeError on a non-dict. -/
def J.item : J → String → Except PyErr J
  | .obj o, k =>
    match List.lookup k o with
    | some v => .ok v
    | Option.none => .error .keyError
  | _, _ => .error .typeError

/-- Python d.get(key): null when absent, AttributeError on a non-dict. -/
def J.getx : J → String → Except PyErr J
  | .obj o, k => .ok ((List.lookup k o).getD J.null)
  | _, _ => .error .attributeError

/-- Python d.get(key, default): the default only when the key is absent. -/
def J.getD : J → String → J → Except PyErr J
  | .obj o, k, dflt => .ok ((List.lookup k o).getD dflt)
  | _, _, _ => .error .attributeError

/-- Narrow a dict value to a string. -/
def J.asStr : J → Except PyErr String
  | .s v => .ok v
  | _ => .error .typeError

/-- Narrow a dict value to a number. -/
def J.asNum : J → Except PyErr ℚ
  | .n q => .ok q
  | _ => .error .typeError

/-- Narrow a dict value to an integer. -/
def J.asInt (j : J) : Except PyErr ℤ := do
  let q ← j.asNum
  if q.den = 1 then .ok q.num else .error .typeError

/-- Narrow a dict value to a boolean. -/
def J.asBool : J → Except PyErr Bool
  | .b v => .ok v
  | _ => .error .typeError

/-- Narrow a dict value to an array. -/
def J.asArr : J → Except PyErr (List J)
  | .arr l => .ok l
  | _ => .error .typeError

/-- Narrow an optional dict value to an optional string. -/
def J.optStr : J → Except PyErr (Option String)
  | .null => .ok Option.none
  | .s v => .ok (some v)
  | _ => .error .typeError

/-- Narrow an optional dict value to an optional number. -/
def J.optNum : J → Except PyErr (Option ℚ)
  | .null => .ok Option.none
  | .n q => .ok (some q)
  | _ => .error .typeError

/-- The enum value string of a slot type. -/
def SlotType.value : SlotType → String
  | .kpi_value => "kpi_value"
  | .table => "table"
  | .chart => "chart"
  | .text => "text"
  | .static => "static"
  | .image => "image"
  | .section_divider => "section_divider"

/-- SlotType(s): look the enum member up by value, ValueError otherwise. -/
def SlotType.ofString (v : String) : Except PyErr SlotType :=
  if v == "kpi_value" then .ok .kpi_value
  else if v == "table" then .ok .table
  else if v == "chart" then .ok .chart
  else if v == "text" then .ok .text
  else if v == "static" then .ok .static
  else if v == "image" then .ok .image
  else if v == "section_divider" then .ok .section_divider
  else .error .valueError

/-- ChartType(s): look the enum member up by value. -/
def ChartType.ofString (v : String) : Except PyErr ChartType :=
  if v == "column_clustered" then .ok .column_clustered
  else if v == "doughnut" then .ok .doughnut
  else if v == "doughnut_exploded" then .ok .doughnut_exploded
  else if v == "line" then .ok .line
  else .error .valueError

/-- FormatType(s): look the enum member up by value. -/
def FormatType.ofString (v : String) : Except PyErr FormatType :=
  if v == "currency" then .ok .currency
  else if v == "percentage" then .ok .percentage
  else if v == "variance_percentage" then .ok .variance_percentage
  else if v == "points_change" then .ok .points_change
  else if v == "number" then .ok .number
  else if v == "text" then .ok .text
  else if v == "integer" then .ok .integer
  else .error .valueError

/-- SlideType(s): look the enum member up by value. -/
def SlideType.ofString (v : String) : Except PyErr SlideType :=
  if v == "cover" then .ok .cover
  else if v == "toc" then .ok .toc
  else if v == "divider" then .ok .divider
  else if v == "data" then .ok .data
  else if v == "manual" then .ok .manual
  else .error .valueError

/-- Embeds Position.from_dict: the four coordinates are required keys. -/
def Position.from_dict (d : J) : Except PyErr Position := do
  let left ← (← d.item "left").asNum
  let top ← (← d.item "top").asNum
  let width ← (← d.item "width").asNum
  let height ← (← d.item "height").asNum
  .ok ⟨left, top, width, height⟩

/-- Embeds FontSpec.from_dict: every field defaulted. -/
def FontSpec.from_dict (d : J) : Except PyErr FontSpec := do
  let name ← (← d.getD "name" (J.s "DM Sans")).asStr
  let size_pt ← (← d.getD "size_pt" (J.n 14)).asNum
  let bold ← (← d.getD "bold" (J.b false)).asBool
  let italic ← (← d.getD "italic" (J.b false)).asBool
  let color ← (← d.getD "color" (J.s "#000000")).asStr
  .ok ⟨name, size_pt, bold, italic, color⟩

/-- Embeds FormatRule.from_dict: format_type required, colors defaulted. -/
def FormatRule.from_dict (d : J) : Except PyErr FormatRule := do
  let ft ← FormatType.ofString (← (← d.item "format_type").asStr)
  let pc ← (← d.getD "positive_color" (J.s "#00AA00")).asStr
  let nc ← (← d.getD "negative_color" (J.s "#CC0000")).asStr
  let uc ← (← d.getD "neutral_color" (J.s "#000000")).asStr
  .ok ⟨ft, pc, nc, uc⟩

/-- Embeds TableColumn.from_dict. -/
def TableColumn.from_dict (d : J) : Except PyErr TableColumn := do
  let header ← (← d.item "header").asStr
  let data_key ← (← d.item "data_key").asStr
  let width ← (← d.getx "width_inches").optNum
  let frj ← d.getx "format_rule"
  let format_rule ←
    if frj.truthy then do .ok (some (← FormatRule.from_dict frj))
    else .ok Option.none
  let fj ← d.getx "font"
  let font ←
    if fj.truthy then do .ok (some (← FontSpec.from_dict fj))
    else .ok Option.none
  let alignment ← (← d.getD "alignment" (J.s "left")).asStr
  .ok ⟨header, data_key, width, format_rule, font, alignment⟩

/-- Embeds ChartSeries.from_dict. -/
def ChartSeries.from_dict (d : J) : Except PyErr ChartSeries := do
  let name ← (← d.item "name").asStr
  let data_key ← (← d.item "data_key").asStr
  let color ← (← d.getx "color").optStr
  .ok ⟨name, data_key, color⟩

/-- Embeds DataSlot.from_dict: name, slot_type, data_key and position are
required; everything else is optional with no validation whatsoever. -/
def DataSlot.from_dict (d : J) : Except PyErr DataSlot := do
  let name ← (← d.item "name").asStr
  let st ← SlotType.ofString (← (← d.item "slot_type").asStr)
  let data_key ← (← d.item "data_key").asStr
  let position ← Position.from_dict (← d.item "position")
  let fj ← d.getx "font"
  let font ←
    if fj.truthy then do .ok (some (← FontSpec.from_dict fj))
    else .ok Option.none
  let frj ← d.getx "format_rule"
  let format_rule ←
    if frj.truthy then do .ok (some (← FormatRule.from_dict frj))
    else .ok Option.none
  let label ← (← d.getx "label").optStr
  let variance_key ← (← d.getx "variance_key").optStr
  let colsj ← (← d.getD "columns" (J.arr [])).asArr
  let columns ← colsj.mapM TableColumn.from_dict
  let row_data_key ← (← d.getx "row_data_key").optStr
  let ctj ← d.getx "chart_type"
  let chart_type ←
    if ctj.truthy then do .ok (some (← ChartType.ofString (← ctj.asStr)))
    else .ok Option.none
  let serj ← (← d.getD "series" (J.arr [])).asArr
  let series ← serj.mapM ChartSeries.from_dict
  let categories_key ← (← d.getx "categories_key").optStr
  let shape_name ← (← d.getx "shape_name").optStr
  .ok ⟨name, st, data_key, position, font, format_rule, label, variance_key,
       columns, row_data_key, chart_type, series, categories_key, shape_name⟩

/-- Embeds SlideSchema.from_dict: the index is stored as given, with no
contiguity or ordering check, and slot names are not checked for
duplicates. -/
def SlideSchema.from_dict (d : J) : Except PyErr SlideSchema := do
  let index ← (← d.item "index").asInt
  let name ← (← d.item "name").asStr
  let title ← (← d.item "title").asStr
  let st ← SlideType.ofString (← (← d.item "slide_type").asStr)
  let data_source ← (← d.item "data_source").asStr
  let layout ← (← d.getD "layout" (J.s "Title Only")).asStr
  let slotsj ← (← d.getD "slots" (J.arr [])).asArr
  let slots ← slotsj.mapM DataSlot.from_dict
  let is_static ← (← d.getD "is_static" (J.b false)).asBool
  .ok ⟨index, name, title, st, data_source, layout, slots, is_static⟩

/-- Embeds DesignSystem.from_dict. -/
def DesignSystem.from_dict (d : J) : Except PyErr DesignSystem := do
  let colors ← d.getD "colors" (J.obj [])
  let typo ← d.getD "typography" (J.obj [])
  let brand_blue ← (← colors.getD "brand_blue" (J.s "#0065E0")).asStr
  let dark_text ← (← colors.getD "dark_text" (J.s "#000000")).asStr
  let white ← (← colors.getD "white" (J.s "#FFFFFF")).asStr
  let dark_blue ← (← colors.getD "dark_blue" (J.s "#190263")).asStr
  let dark_grey ← (← colors.getD "dark_grey" (J.s "#1C2B33")).asStr
  let accent_green ← (← colors.getD "accent_green" (J.s "#00E167")).asStr
  let positive ← (← colors.getD "positive" (J.s "#00AA00")).asStr
  let negative ← (← colors.getD "negative" (J.s "#CC0000")).asStr
  let light_gray ← (← colors.getD "light_gray" (J.s "#D1D5DB")).asStr
  let divider_bg ← (← colors.getD "divider_bg" (J.s "#0065E0")).asStr
  let primary_font ← (← typo.getD "primary_font" (J.s "DM Sans")).asStr
  let title_size_pt ← (← typo.getD "title_size_pt" (J.n 36)).asNum
  let header_size_pt ← (← typo.getD "header_size_pt" (J.n 24)).asNum
  let body_size_pt ← (← typo.getD "body_size_pt" (J.n 14)).asNum
  let kpi_number_size_pt ← (← typo.getD "kpi_number_size_pt" (J.n 48)).asNum
  let kpi_label_size_pt ← (← typo.getD "kpi_label_size_pt" (J.n 12)).asNum
  let caption_size_pt ← (← typo.getD "caption_size_pt" (J.n 9)).asNum
  .ok ⟨brand_blue, dark_text, white, dark_blue, dark_grey, accent_green,
       positive, negative, light_gray, divider_bg, primary_font,
       title_size_pt, header_size_pt, body_size_pt, kpi_number_size_pt,
       kpi_label_size_pt, caption_size_pt⟩

/-- Embeds TemplateSchema.from_dict: name and report_type are the only
required keys; slides are deserialized as given, and no well-formedness
condition (index contiguity, slot-name uniqueness, key namespacing) is
ever checked. -/
def TemplateSchema.from_dict (d : J) : Except PyErr TemplateSchema := do
  let dims ← d.getD "dimensions" (J.obj [])
  let name ← (← d.item "name").asStr
  let report_type ← (← d.item "report_type").asStr
  let width ← (← dims.getD "width_inches" (J.n (mkRat 13333 1000))).asNum
  let height ← (← dims.getD "height_inches" (J.n (mkRat 15 2))).asNum
  let design ← DesignSystem.from_dict (← d.getD "design" (J.obj []))
  let slidesj ← (← d.getD "slides" (J.arr [])).asArr
  let slides ← slidesj.mapM SlideSchema.from_dict
  let naming_convention ← (← d.getD "naming_convention" (J.s "")).asStr
  .ok ⟨name, report_type, width, height, design, slides, naming_convention⟩

/-- Spec-side well-formedness predicate of the claim: slide indices are
exactly 0..n-1 in order, no slide has duplicate slot names, and every
slot data key contains the namespace separator. -/
def schema_well_formed (t : TemplateSchema) : Bool :=
  t.slides.enum.all (fun p => p.2.index == (p.1 : ℤ))
  && t.slides.all (fun s =>
      decide ((s.slots.map (fun sl => sl.name)).Nodup))
  && t.slides.all (fun s =>
      s.slots.all (fun sl => sl.data_key.data.contains (Char.ofNat 46)))

/-- A structurally complete but ill-formed template dict: its single slide
has index 3 instead of 0, its two slots share the name "dup", and both
data keys lack the namespace separator. -/
def c3_bad_dict : J :=
  J.obj [
    ("name", J.s "bad"),
    ("report_type", J.s "monthly"),
    ("slides", J.arr [
      J.obj [
        ("index", J.n 3),
        ("name", J.s "slide_one"),
        ("title", J.s "Slide One"),
        ("slide_type", J.s "data"),
        ("data_source", J.s "src"),
        ("slots", J.arr [
          J.obj [
            ("name", J.s "dup"),
            ("slot_type", J.s "kpi_value"),
            ("data_key", J.s "nodot"),
            ("position", J.obj [("left", J.n 1), ("top", J.n 1),
                                ("width", J.n 2), ("height", J.n 1)])],
          J.obj [
            ("name", J.s "dup"),
            ("slot_type", J.s "text"),
            ("data_key", J.s "alsonodot"),
            ("position", J.obj [("left", J.n 1), ("top", J.n 3),
                                ("width", J.n 2), ("height", J.n 1)])]])]])]

/-- The slide that deserializing c3_bad_dict produces. -/
def c3_bad_slide : SlideSchema :=
  { index := 3, name := "slide_one", title := "Slide One",
    slide_type := SlideType.data, data_source := "src",
    slots := [
      { name := "dup", slot_type := SlotType.kpi_value, data_key := "nodot",
        position := ⟨1, 1, 2, 1⟩ },
      { name := "dup", slot_type := SlotType.text, data_key := "alsonodot",
        position := ⟨1, 3, 2, 1⟩ }] }

/-- The schema that deserializing c3_bad_dict produces. -/
def c3_bad_schema : TemplateSchema :=
  { name := "bad", report_type := "monthly",
    width_inches := mkRat 13333 1000, height_inches := mkRat 15 2,
    design := {}, slides := [c3_bad_slide] }

/-- A template dict whose slide carries an unknown slide_type string. -/
def c3_bad_enum_dict : J :=
  J.obj [
    ("name", J.s "bad2"),
    ("report_type", J.s "monthly"),
    ("slides", J.arr [
      J.obj [
        ("index", J.n 0),
        ("name", J.s "s"),
        ("title", J.s "S"),
        ("slide_type", J.s "bogus"),
        ("data_source", J.s "src")]])]

/-- Whether a legend is shown, and where (the only position the source
ever sets is bottom). -/
inductive LegendState
  | hidden
  | bottom
  deriving DecidableEq

/-- The python-pptx XL_CHART_TYPE members the source maps onto. -/
inductive XLChartType
  | column_clustered
  | line
  | doughnut
  | doughnut_exploded
  deriving DecidableEq

/-- The numeric code of an XL_CHART_TYPE member. -/
def XLChartType.code : XLChartType → ℤ
  | .column_clustered => 51
  | .line => 4
  | .doughnut => -4120
  | .doughnut_exploded => 80

/-- The display name of an XL_CHART_TYPE member. -/
def XLChartType.tag : XLChartType → String
  | .column_clustered => "COLUMN_CLUSTERED"
  | .line => "LINE"
  | .doughnut => "DOUGHNUT"
  | .doughnut_exploded => "DOUGHNUT_EXPLODED"

/-- Python str() of an XL_CHART_TYPE member. -/
def XLChartType.pystr (x : XLChartType) : String :=
  x.tag ++ " (" ++ toString x.code ++ ")"

/-- The total _CHART_TYPE_MAP of charts.py and pptx_builder.py. -/
def chart_type_map : ChartType → XLChartType
  | .column_clustered => .column_clustered
  | .line => .line
  | .doughnut => .doughnut
  | .doughnut_exploded => .doughnut_exploded

/-- Embeds charts._safe_value: None, NaN, infinities and non-numeric
values coerce to zero; finite numbers pass through. -/
def safe_value : Value → ℚ
  | .num (.fin q) => q
  | _ => 0

/-- Embeds charts._is_doughnut. -/
def is_doughnut (ct : ChartType) : Bool :=
  ct == ChartType.doughnut || ct == ChartType.doughnut_exploded

/-- The Python membership test chart_type in (DOUGHNUT, DOUGHNUT_EXPLODED)
on an optional chart type (None is in neither). -/
def is_doughnut_opt : Option ChartType → Bool
  | some ct => is_doughnut ct
  | Option.none => false

/-- Python truthiness of an optional string (None and "" are falsy). -/
def opt_str_truthy : Option String → Bool
  | some s => s != ""
  | Option.none => false

/-- The data a chart shape is created from: categories plus named series
of sanitized floats (pptx CategoryChartData). -/
structure ChartData where
  categories : List Value
  series : List (String × List ℚ)

/-- One iteration of the series loop of _build_category_chart_data: an
absent value becomes a zero list of the category length, a present value
is converted to a list, right-padded with zeros or truncated to the
category length, and every entry is sanitized. -/
def build_series_entry (payload : Payload) (m : ℕ) (sd : ChartSeries) :
    Except PyErr (String × List ℚ) := do
  let raw := payload.getv sd.data_key
  let values ←
    match raw with
    | Value.none => pure (List.replicate m (Value.num (PyFloat.fin 0)))
    | v => do
      let l ← pyList v
      if l.length < m then pure (l ++ List.replicate (m - l.length) (Value.num (PyFloat.fin 0)))
      else if l.length > m then pure (l.take m)
      else pure l
  .ok (sd.name, values.map safe_value)

/-- The series loop of _build_category_chart_data over every declared
series. -/
def build_series_list (payload : Payload) (m : ℕ) (series : List ChartSeries) :
    Except PyErr (List (String × List ℚ)) :=
  series.mapM (build_series_entry payload m)

/-- Embeds charts._build_category_chart_data: None without a truthy
categories key, without truthy category data or without declared series;
otherwise the padded, sanitized series built per declaration. -/
def build_category_chart_data (slot : DataSlot) (payload : Payload) :
    Except PyErr (Option ChartData) := do
  match slot.categories_key with
  | Option.none => return Option.none
  | some ck =>
    if ck == "" then return Option.none
    else do
      let categories := payload.getv ck
      if !categories.truthy then return Option.none
      else if slot.series.isEmpty then return Option.none
      else do
        let m ← pyLen categories
        let cats ← pyList categories
        let ser ← build_series_list payload m slot.series
        return some ⟨cats, ser⟩

/-- Embeds charts._build_doughnut_chart_data: one slice per declared
series named by the series, valued by the sanitized scalar lookup; None
when no series exist or every value sanitizes to zero. -/
def build_doughnut_chart_data (slot : DataSlot) (payload : Payload) :
    Option ChartData :=
  if slot.series.isEmpty then Option.none
  else
    let categories := slot.series.map (fun s => Value.str s.name)
    let values := slot.series.map (fun s => safe_value (payload.getv s.data_key))
    if values.all (fun v => v == 0) then Option.none
    else some ⟨categories, [("Data", values)]⟩

/-- A color application the styling code performs on a chart. -/
inductive ColorOp
  | point_fill (idx : ℕ) (hex : String)
  | series_fill (idx : ℕ) (hex : String)
  | series_line (idx : ℕ) (hex : String)
  deriving DecidableEq

/-- A chart shape in the produced artifact. -/
structure ChartShape where
  xl_type : XLChartType
  categories : List Value
  series : List (String × List Value)
  left : ℤ
  top : ℤ
  width : ℤ
  height : ℤ
  legend : LegendState := LegendState.hidden
  font_name : Option String := Option.none
  font_size_pt : Option ℚ := Option.none
  legend_font_name : Option String := Option.none
  legend_font_size_pt : Option ℚ := Option.none
  color_ops : List ColorOp := []

/-- Normalize a color string the way _hex_to_rgb plus RGBColor rendering
does: strip leading hash marks and uppercase. -/
def hexUp (s : String) : String :=
  strUpper (strLStrip s (Char.ofNat 35))

/-- Inches(x): python-pptx converts inches to integer EMU. -/
def Inches (q : ℚ) : ℤ :=
  (q.num * 914400).tdiv (q.den : ℤ)

/-- Embeds charts._apply_series_colors: on a doughnut each colored series
definition fills one point of the single data series; on category charts
each colored definition colors its series, by line for line charts and by
fill otherwise. -/
def apply_series_colors (c : ChartShape) (slot : DataSlot) : ChartShape :=
  if is_doughnut_opt slot.chart_type then
    if !c.series.isEmpty && !slot.series.isEmpty then
      let npoints := ((c.series.headD ("", [])).2).length
      let ops := slot.series.enum.filterMap (fun p =>
        match p.2.color with
        | some col =>
          if col != "" && p.1 < npoints then some (ColorOp.point_fill p.1 (hexUp col))
          else Option.none
        | Option.none => Option.none)
      { c with color_ops := c.color_ops ++ ops }
    else c
  else
    let nser := c.series.length
    let ops := slot.series.enum.filterMap (fun p =>
      match p.2.color with
      | some col =>
        if p.1 < nser && col != "" then
          some (if slot.chart_type == some ChartType.line
                then ColorOp.series_line p.1 (hexUp col)
                else ColorOp.series_fill p.1 (hexUp col))
        else Option.none
      | Option.none => Option.none)
    { c with color_ops := c.color_ops ++ ops }

/-- Embeds charts._apply_chart_style: chart font from the design system;
legend hidden for doughnuts, shown at the bottom for more than one
declared series, hidden otherwise. -/
def apply_chart_style (c : ChartShape) (slot : DataSlot) (design : DesignSystem) :
    ChartShape :=
  let c := { c with font_name := some design.primary_font,
                    font_size_pt := some design.caption_size_pt }
  if is_doughnut_opt slot.chart_type then
    { c with legend := LegendState.hidden }
  else if slot.series.length > 1 then
    { c with legend := LegendState.bottom,
             legend_font_name := some design.primary_font,
             legend_font_size_pt := some design.caption_size_pt }
  else
    { c with legend := LegendState.hidden }

/-- Embeds charts.add_chart: raises ValueError unless the slot is a chart
slot with a chart type; returns None when the data builders yield no
data; otherwise the created, colored and styled chart shape. -/
def add_chart (slot : DataSlot) (payload : Payload) (design : DesignSystem) :
    Except PyErr (Option ChartShape) := do
  if slot.slot_type != SlotType.chart then throw PyErr.valueError
  else match slot.chart_type with
  | Option.none => throw PyErr.valueError
  | some ct => do
    let cd? ←
      if is_doughnut ct then pure (build_doughnut_chart_data slot payload)
      else build_category_chart_data slot payload
    match cd? with
    | Option.none => return Option.none
    | some cd =>
      let base : ChartShape := {
        xl_type := chart_type_map ct,
        categories := cd.categories,
        series := cd.series.map (fun p => (p.1, p.2.map (fun q => Value.num (PyFloat.fin q)))),
        left := Inches slot.position.left,
        top := Inches slot.position.top,
        width := Inches slot.position.width,
        height := Inches slot.position.height }
      return some (apply_chart_style (apply_series_colors base slot) slot design)

/-- Embeds charts.add_slide_charts: render every chart slot of the slide
through add_chart, collecting the names of the slots that produced a
chart. -/
def add_slide_charts (slide_schema : SlideSchema) (payload : Payload)
    (design : DesignSystem) : Except PyErr (List String) := do
  let added ← slide_schema.slots.mapM (fun slot =>
    if slot.slot_type == SlotType.chart then do
      match ← add_chart slot payload design with
      | some _ => pure [slot.name]
      | Option.none => pure []
    else pure [])
  .ok added.flatten

/-- Paragraph alignment (pptx PP_ALIGN members the source uses). -/
inductive PAlign
  | left
  | center
  | right
  deriving DecidableEq

/-- The builder _ALIGN_MAP lookup with its LEFT default. -/
def align_map (s : String) : PAlign :=
  if s == "left" then PAlign.left
  else if s == "center" then PAlign.center
  else if s == "right" then PAlign.right
  else PAlign.left

/-- A text run with the font attributes the source sets. -/
structure TextRun where
  text : String
  font_name : Option String := Option.none
  font_size_pt : Option ℚ := Option.none
  bold : Option Bool := Option.none
  italic : Option Bool := Option.none
  color_hex : Option String := Option.none
  deriving DecidableEq

/-- A paragraph of runs. -/
structure Para where
  alignment : Option PAlign := Option.none
  runs : List TextRun := []
  deriving DecidableEq

/-- A text frame; a new frame holds one empty paragraph. -/
structure TextFrame where
  word_wrap : Bool := false
  paras : List Para := [{}]
  deriving DecidableEq

/-- The text of a paragraph: its runs concatenated. -/
def Para.text (p : Para) : String :=
  String.join (p.runs.map (fun r => r.text))

/-- The text of a text frame: paragraph texts joined by newlines, as
python-pptx renders text_frame.text. -/
def TextFrame.text (tf : TextFrame) : String :=
  String.intercalate "\n" (tf.paras.map Para.text)

/-- A text box shape. -/
structure TextBoxShape where
  tf : TextFrame
  left : ℤ
  top : ℤ
  width : ℤ
  height : ℤ
  deriving DecidableEq

/-- A table cell: its own paragraphs plus the fill and anchoring the
styling code sets. -/
structure TableCell where
  paras : List Para := [{}]
  fill_hex : Option String := Option.none
  anchor_middle : Bool := false
  deriving DecidableEq

/-- The text of a table cell. -/
def TableCell.text (c : TableCell) : String :=
  String.intercalate "\n" (c.paras.map Para.text)

/-- A table shape: a rectangular cell grid with a declared column count
and per-column width overrides. -/
structure TableShape where
  cells : List (List TableCell)
  ncols : ℕ
  col_widths : List (Option ℤ)
  left : ℤ
  top : ℤ
  width : ℤ
  height : ℤ
  deriving DecidableEq

/-- A shape on a rendered slide. -/
inductive Shape
  | textbox (tb : TextBoxShape)
  | table (t : TableShape)
  | chart (c : ChartShape)

/-- A rendered slide: its shapes plus the background fill color when one
was applied. -/
structure SlideA where
  shapes : List Shape := []
  background_hex : Option String := Option.none

/-- A rendered presentation artifact. -/
structure Artifact where
  slide_width : ℤ
  slide_height : ℤ
  slides : List SlideA := []

/-- Embeds pptx_builder._format_slot_value: missing becomes the sentinel,
no rule falls back to str(), otherwise format_value. -/
def format_slot_value (value : Value) (format_rule : Option FormatRule) :
    Except PyErr String :=
  if is_missing value then .ok "N/A"
  else match format_rule with
    | Option.none => .ok (pyStr value)
    | some fr => format_value value fr.format_type

/-- Embeds pptx_builder._apply_font: without a spec the design font and
body size, otherwise the full spec with its color. -/
def apply_font (r : TextRun) (font_spec : Option FontSpec) (design : DesignSystem) :
    TextRun :=
  match font_spec with
  | Option.none =>
    { r with font_name := some design.primary_font,
             font_size_pt := some design.body_size_pt }
  | some fs =>
    let r := { r with font_name := some fs.name, font_size_pt := some fs.size_pt,
                      bold := some fs.bold, italic := some fs.italic }
    if fs.color != "" then { r with color_hex := some (hexUp fs.color) } else r

/-- Embeds pptx_builder._render_text: a word-wrapped text box whose single
run holds the joined list items or the stringified value, empty when the
value is missing. -/
def render_text (design : DesignSystem) (slot : DataSlot) (payload : Payload) :
    Except PyErr Shape := do
  let value := payload.getv slot.data_key
  let text :=
    if is_missing value then ""
    else match value with
      | Value.list l => String.intercalate "\n" (l.map pyStr)
      | v => pyStr v
  let run := apply_font { text := text } slot.font design
  let pos := slot.position
  .ok (Shape.textbox {
    tf := { word_wrap := true, paras := [{ runs := [run] }] },
    left := Inches pos.left, top := Inches pos.top,
    width := Inches pos.width, height := Inches pos.height })

/-- Embeds pptx_builder._render_kpi: an optional label paragraph, the
formatted value paragraph, and a variance paragraph when a variance key
is declared and its value present. -/
def render_kpi (design : DesignSystem) (slot : DataSlot) (payload : Payload) :
    Except PyErr Shape := do
  let label_paras : List Para :=
    match slot.label with
    | some lbl =>
      if lbl != "" then
        [{ alignment := some PAlign.center,
           runs := [apply_font { text := lbl }
             (some { name := design.primary_font,
                     size_pt := design.kpi_label_size_pt,
                     color := design.dark_grey }) design] }]
      else [{}]
    | Option.none => [{}]
  let value := payload.getv slot.data_key
  let formatted ← format_slot_value value slot.format_rule
  let value_para : Para :=
    { alignment := some PAlign.center,
      runs := [apply_font { text := formatted } slot.font design] }
  let var_paras ←
    match slot.variance_key with
    | some vk =>
      if vk != "" then do
        let var_value := payload.getv vk
        if !is_missing var_value then do
          let var_text0 ← format_value var_value FormatType.variance_percentage
          let var_color ← variance_color var_value "#00AA00" "#CC0000" "#000000"
          let var_text ←
            if (slot.format_rule.map (fun fr => fr.format_type))
                == some FormatType.points_change then
              format_value var_value FormatType.points_change
            else pure var_text0
          pure [({ alignment := some PAlign.center,
                   runs := [{ text := var_text,
                              font_name := some design.primary_font,
                              font_size_pt := some design.caption_size_pt,
                              color_hex := some (hexUp var_color) }] } : Para)]
        else pure []
      else pure []
    | Option.none => pure []
  let pos := slot.position
  .ok (Shape.textbox {
    tf := { word_wrap := true, paras := label_paras ++ [value_para] ++ var_paras },
    left := Inches pos.left, top := Inches pos.top,
    width := Inches pos.width, height := Inches pos.height })

/-- The header-cell styling of _style_table_cell: size 11 bold in the
design white on the dark-blue fill. -/
def style_run_header (design : DesignSystem) (r : TextRun) : TextRun :=
  { r with font_name := some design.primary_font, font_size_pt := some 11,
           bold := some true, color_hex := some (hexUp design.white) }

/-- The data-cell styling of _style_table_cell: size 11 regular, colored
by the override when one is given and by the design text color
otherwise. -/
def style_run_data (design : DesignSystem) (color_override : Option String)
    (r : TextRun) : TextRun :=
  { r with font_name := some design.primary_font, font_size_pt := some 11,
           bold := some false,
           color_hex := some (hexUp (match color_override with
             | some c => c
             | Option.none => design.dark_text)) }

/-- One data cell of _render_table: the formatted value with variance
coloring applied for variance-formatted columns. -/
def table_data_cell (design : DesignSystem) (col : TableColumn) (row : Value) :
    Except PyErr TableCell := do
  let raw ← pyDictGet row col.data_key
  let formatted ← format_slot_value raw col.format_rule
  let color_override ←
    match col.format_rule with
    | some fr =>
      if fr.format_type == FormatType.variance_percentage
          || fr.format_type == FormatType.points_change then
        if !is_missing raw then do
          let c ← variance_color raw fr.positive_color fr.negative_color fr.neutral_color
          pure (some c)
        else pure Option.none
      else pure Option.none
    | Option.none => pure Option.none
  .ok { paras := [{ alignment := some (align_map col.alignment),
                    runs := [style_run_data design
                      (if opt_str_truthy color_override then color_override
                       else Option.none) { text := formatted }] }],
        anchor_middle := true }

/-- The data-row loop of _render_table: one list of cells per data row,
one cell per declared column. -/
def table_data_rows (design : DesignSystem) (columns : List TableColumn)
    (rows : List Value) : Except PyErr (List (List TableCell)) :=
  rows.mapM (fun row => columns.mapM (fun col => table_data_cell design col row))

/-- The categories lookup of _render_chart: the payload value of a truthy
categories key, None otherwise. -/
def builder_categories (slot : DataSlot) (payload : Payload) : Value :=
  match slot.categories_key with
  | some k => if k != "" then payload.getv k else Value.none
  | Option.none => Value.none

/-- The row-data lookup shared by _render_table and _check_table_slot:
the payload value of a truthy row-data key, None otherwise. -/
def table_rows_value (slot : DataSlot) (payload : Payload) : Value :=
  match slot.row_data_key with
  | some k => if k != "" then payload.getv k else Value.none
  | Option.none => Value.none

/-- Embeds pptx_builder._render_table: with truthy row data and declared
columns, a grid of one header row plus one row per data row; otherwise
the slot falls back to the text renderer as a placeholder. -/
def render_table (design : DesignSystem) (slot : DataSlot) (payload : Payload) :
    Except PyErr Shape := do
  let rows_data : Value := table_rows_value slot payload
  if !rows_data.truthy || slot.columns.isEmpty then
    render_text design slot payload
  else do
    let _num_rows ← pyLen rows_data
    let rows ← pyList rows_data
    let header := slot.columns.map (fun col =>
      ({ paras := [{ alignment := some (align_map col.alignment),
                     runs := [style_run_header design { text := col.header }] }],
         fill_hex := some (strLStrip design.dark_blue (Char.ofNat 35)),
         anchor_middle := true } : TableCell))
    let data ← table_data_rows design slot.columns rows
    let pos := slot.position
    .ok (Shape.table {
      cells := header :: data,
      ncols := slot.columns.length,
      col_widths := slot.columns.map (fun col => col.width_inches.map Inches),
      left := Inches pos.left, top := Inches pos.top,
      width := Inches pos.width, height := Inches pos.height })

/-- Embeds pptx_builder._render_placeholder: a caption-sized light-gray
tag naming the slot and its kind. -/
def render_placeholder (design : DesignSystem) (slot : DataSlot)
    (_payload : Payload) : Except PyErr Shape := do
  let pos := slot.position
  .ok (Shape.textbox {
    tf := { paras := [{ runs := [{
      text := "[" ++ slot.slot_type.value ++ ": " ++ slot.name ++ "]",
      font_name := some design.primary_font,
      font_size_pt := some design.caption_size_pt,
      color_hex := some (hexUp design.light_gray) }] }] },
    left := Inches pos.left, top := Inches pos.top,
    width := Inches pos.width, height := Inches pos.height })

/-- Embeds pptx_builder._render_section_divider: centered divider text,
falling back to the slot name when the payload value is missing. -/
def render_section_divider (design : DesignSystem) (slot : DataSlot)
    (payload : Payload) : Except PyErr Shape := do
  let value := payload.getv slot.data_key
  let text := if !is_missing value then pyStr value else slot.name
  let pos := slot.position
  .ok (Shape.textbox {
    tf := { word_wrap := true,
            paras := [{ alignment := some PAlign.center,
                        runs := [apply_font { text := text } slot.font design] }] },
    left := Inches pos.left, top := Inches pos.top,
    width := Inches pos.width, height := Inches pos.height })

/-- One iteration of the series loop of _render_chart: a missing or falsy
series value becomes a zero list of the category length when categories
are truthy and is skipped otherwise; a present value is emitted as-is,
with no padding, truncation or sanitization. -/
def builder_series_entry (payload : Payload) (categories : Value)
    (s : ChartSeries) : Except PyErr (Option (String × List Value)) := do
  let series_values := payload.getv s.data_key
  if is_missing series_values || !series_values.truthy then
    if categories.truthy then do
      let m ← pyLen categories
      .ok (some (s.name, List.replicate m (Value.num (PyFloat.fin 0))))
    else .ok Option.none
  else do
    let l ← pyList series_values
    .ok (some (s.name, l))

/-- The series loop of _render_chart over every declared series, dropping
the skipped ones. -/
def builder_series_list (payload : Payload) (categories : Value)
    (series : List ChartSeries) : Except PyErr (List (String × List Value)) := do
  let entries ← series.mapM (builder_series_entry payload categories)
  .ok (entries.filterMap id)

/-- The series-color loop at the end of _render_chart: every colored
declared series within range gets a solid fill. -/
def builder_apply_colors (c : ChartShape) (slot : DataSlot) : ChartShape :=
  let n := c.series.length
  let ops := slot.series.enum.filterMap (fun p =>
    match p.2.color with
    | some col =>
      if col != "" && p.1 < n then some (ColorOp.series_fill p.1 (hexUp col))
      else Option.none
    | Option.none => Option.none)
  { c with color_ops := c.color_ops ++ ops }

/-- Embeds pptx_builder._render_chart: placeholder without a chart type or
series; a special single-series path for doughnuts without usable
categories; otherwise the category-chart path, always with a bottom
legend. -/
def render_chart (design : DesignSystem) (slot : DataSlot) (payload : Payload) :
    Except PyErr (List Shape) := do
  match slot.chart_type with
  | Option.none => do return [← render_placeholder design slot payload]
  | some ct =>
    if slot.series.isEmpty then do return [← render_placeholder design slot payload]
    else do
      let categories : Value := builder_categories slot payload
      let xl := chart_type_map ct
      if categories.truthy && !is_missing categories then do
        let citems ← pyList categories
        let cats := citems.map (fun c => Value.str (pyStr c))
        let ser ← builder_series_list payload categories slot.series
        let pos := slot.position
        let base : ChartShape := {
          xl_type := xl, categories := cats, series := ser,
          left := Inches pos.left, top := Inches pos.top,
          width := Inches pos.width, height := Inches pos.height,
          legend := LegendState.bottom }
        return [Shape.chart (builder_apply_colors base slot)]
      else if is_doughnut ct then do
        let cats := slot.series.map (fun s => Value.str s.name)
        let values := slot.series.map (fun s =>
          let val := payload.getv s.data_key
          if !is_missing val then val else Value.num (PyFloat.fin 0))
        let pos := slot.position
        let ops := slot.series.enum.filterMap (fun p =>
          match p.2.color with
          | some col =>
            if col != "" then some (ColorOp.point_fill p.1 (hexUp col))
            else Option.none
          | Option.none => Option.none)
        return [Shape.chart {
          xl_type := xl, categories := cats, series := [("Data", values)],
          left := Inches pos.left, top := Inches pos.top,
          width := Inches pos.width, height := Inches pos.height,
          legend := LegendState.bottom, color_ops := ops }]
      else do
        let ser ← builder_series_list payload categories slot.series
        let pos := slot.position
        let base : ChartShape := {
          xl_type := xl, categories := [], series := ser,
          left := Inches pos.left, top := Inches pos.top,
          width := Inches pos.width, height := Inches pos.height,
          legend := LegendState.bottom }
        return [Shape.chart (builder_apply_colors base slot)]

/-- Embeds pptx_builder._render_slot: the dispatch table from slot kinds
to renderers, image falling back to the placeholder. -/
def render_slot (design : DesignSystem) (slot : DataSlot) (payload : Payload) :
    Except PyErr (List Shape) := do
  match slot.slot_type with
  | SlotType.kpi_value => do return [← render_kpi design slot payload]
  | SlotType.table => do return [← render_table design slot payload]
  | SlotType.chart => render_chart design slot payload
  | SlotType.text => do return [← render_text design slot payload]
  | SlotType.static => do return [← render_text design slot payload]
  | SlotType.section_divider => do return [← render_section_divider design slot payload]
  | SlotType.image => do return [← render_placeholder design slot payload]

/-- Embeds pptx_builder._build_slide: a blank slide, a divider background
for section-divider slides, then every slot rendered in order. -/
def build_slide (design : DesignSystem) (slide_schema : SlideSchema)
    (payload : Payload) : Except PyErr SlideA := do
  let bg :=
    if slide_schema.slide_type == SlideType.divider
    then some (hexUp design.divider_bg) else Option.none
  let shapess ← slide_schema.slots.mapM (fun slot => render_slot design slot payload)
  .ok { shapes := shapess.flatten, background_hex := bg }

/-- The builder object: it carries the schema it renders. -/
structure PPTXBuilder where
  schema : TemplateSchema

/-- Embeds PPTXBuilder.build: canvas dimensions from the schema, then one
slide rendered per slide schema, in order. -/
def PPTXBuilder.build (self : PPTXBuilder) (payload : Payload) :
    Except PyErr Artifact := do
  let slides ← self.schema.slides.mapM (fun s => build_slide self.schema.design s payload)
  .ok { slide_width := Inches self.schema.width_inches,
        slide_height := Inches self.schema.height_inches,
        slides := slides }

/-- The enum value string of a format type. -/
def FormatType.value : FormatType → String
  | .currency => "currency"
  | .percentage => "percentage"
  | .variance_percentage => "variance_percentage"
  | .points_change => "points_change"
  | .number => "number"
  | .text => "text"
  | .integer => "integer"

/-- A single QA issue (validator.Issue). -/
structure Issue where
  severity : String
  slide_index : ℤ
  slide_name : String
  slot_name : String
  category : String
  message : String
  deriving DecidableEq

/-- Aggregated result of QA validation (validator.QAResult). -/
structure QAResult where
  issues : List Issue := []
  deriving DecidableEq

/-- The error-severity issues of a result. -/
def QAResult.errors (r : QAResult) : List Issue :=
  r.issues.filter (fun i => i.severity == "error")

/-- The warning-severity issues of a result. -/
def QAResult.warnings (r : QAResult) : List Issue :=
  r.issues.filter (fun i => i.severity == "warning")

/-- Passed means zero errors; warnings never fail the build. -/
def QAResult.passed (r : QAResult) : Bool :=
  r.errors.isEmpty

/-- Number of error issues. -/
def QAResult.error_count (r : QAResult) : ℕ :=
  r.errors.length

/-- Number of warning issues. -/
def QAResult.warning_count (r : QAResult) : ℕ :=
  r.warnings.length

/-- Embeds validator._all_text_on_slide: the text of every shape with a
text frame, joined by single spaces (tables and charts carry none). -/
def all_text_on_slide (slide : SlideA) : String :=
  String.intercalate " " (slide.shapes.filterMap (fun s =>
    match s with
    | Shape.textbox tb => some tb.tf.text
    | _ => Option.none))

/-- Embeds validator._table_shapes. -/
def table_shapes (slide : SlideA) : List TableShape :=
  slide.shapes.filterMap (fun s =>
    match s with
    | Shape.table t => some t
    | _ => Option.none)

/-- Embeds validator._chart_shapes. -/
def chart_shapes (slide : SlideA) : List ChartShape :=
  slide.shapes.filterMap (fun s =>
    match s with
    | Shape.chart c => some c
    | _ => Option.none)

/-- Python list indexing: negative indices wrap once; out of range raises
IndexError. -/
def py_index {α : Type} (l : List α) (i : ℤ) : Except PyErr α :=
  let j := if i < 0 then i + l.length else i
  match l[j.toNat]? with
  | some x => if 0 ≤ j then .ok x else .error .indexError
  | Option.none => .error .indexError

/-- Strict lexicographic order on character lists. -/
def charListLt : List Char → List Char → Bool
  | [], [] => false
  | [], _ :: _ => true
  | _ :: _, [] => false
  | a :: as, b :: bs =>
    if a < b then true else if b < a then false else charListLt as bs

/-- Python code-point string order. -/
def str_lt (a b : String) : Bool :=
  charListLt a.data b.data

/-- Insert into a sorted string list. -/
def insert_sorted (x : String) : List String → List String
  | [] => [x]
  | y :: ys => if str_lt y x then y :: insert_sorted x ys else x :: y :: ys

/-- Python sorted() on strings. -/
def sort_strings : List String → List String
  | [] => []
  | x :: xs => insert_sorted x (sort_strings xs)

/-- Cell lookup table.cell(r, c); out of range raises. -/
def table_cell (t : TableShape) (r c : ℕ) : Except PyErr TableCell :=
  match t.cells[r]? with
  | some row =>
    match row[c]? with
    | some cell => .ok cell
    | Option.none => .error .indexError
  | Option.none => .error .indexError

/-- Embeds validator._find_slide_for_key: the name of the first slide one
of whose slots references the key, or the empty string. -/
def find_slide_for_key (schema : TemplateSchema) (data_key : String) : String :=
  match schema.slides.find? (fun sl =>
    sl.slots.any (fun slot => (slot_keys slot).contains data_key)) with
  | some sl => sl.name
  | Option.none => ""

/-- Embeds validator._check_slide_count. -/
def check_slide_count (schema : TemplateSchema) (pptx : Artifact) : List Issue :=
  let expected := schema.slides.length
  let actual := pptx.slides.length
  if actual != expected then
    [{ severity := "error", slide_index := -1, slide_name := "", slot_name := "",
       category := "slide_count",
       message := "Expected " ++ toString expected ++ " slides, got " ++ toString actual }]
  else []

/-- Embeds validator._check_dimensions. -/
def check_dimensions (schema : TemplateSchema) (pptx : Artifact) : List Issue :=
  let expected_w := Inches schema.width_inches
  let expected_h := Inches schema.height_inches
  (if pptx.slide_width != expected_w then
    [{ severity := "error", slide_index := -1, slide_name := "", slot_name := "",
       category := "dimensions",
       message := "Slide width " ++ toString pptx.slide_width
         ++ " != expected " ++ toString expected_w }]
  else [])
  ++
  (if pptx.slide_height != expected_h then
    [{ severity := "error", slide_index := -1, slide_name := "", slot_name := "",
       category := "dimensions",
       message := "Slide height " ++ toString pptx.slide_height
         ++ " != expected " ++ toString expected_h }]
  else [])

/-- Embeds validator._check_payload_coverage: one warning per referenced
key missing from the payload, in sorted order. -/
def check_payload_coverage (schema : TemplateSchema) (payload : Payload) :
    List Issue :=
  let top_level :=
    ((schema.slides.map (fun s => (s.slots.map slot_keys).flatten)).flatten).dedup
  let pkeys := payload.map (fun kv => kv.1)
  let missing := sort_strings (top_level.filter (fun k => !pkeys.contains k))
  missing.map (fun key =>
    { severity := "warning", slide_index := -1,
      slide_name := find_slide_for_key schema key, slot_name := "",
      category := "payload_missing",
      message := "Data key \x27" ++ key ++ "\x27 not in payload" })

/-- Embeds validator._check_divider_background: the slide background must
carry the divider color; a missing fill is its own error. -/
def check_divider_background (design : DesignSystem) (slide : SlideA)
    (ss : SlideSchema) : List Issue :=
  let expected_hex := strLStrip design.divider_bg (Char.ofNat 35)
  match slide.background_hex with
  | some actual_hex =>
    if strUpper actual_hex != strUpper expected_hex then
      [{ severity := "error", slide_index := ss.index, slide_name := ss.name,
         slot_name := "", category := "divider_background",
         message := "Divider background color " ++ actual_hex
           ++ " != expected " ++ expected_hex }]
    else []
  | Option.none =>
    [{ severity := "error", slide_index := ss.index, slide_name := ss.name,
       slot_name := "", category := "divider_background",
       message := "Divider slide missing background fill" }]

/-- Embeds validator._check_variance_color: scan every run for the
variance text and flag wrongly colored occurrences, then warn when the
text never appeared. -/
def check_variance_color (slide : SlideA) (slot : DataSlot) (ss : SlideSchema)
    (var_value : Value) : Except PyErr (List Issue) := do
  let expected_color ← variance_color var_value "#00AA00" "#CC0000" "#000000"
  let expected_hex := strUpper (strLStrip expected_color (Char.ofNat 35))
  let var_text ←
    if (slot.format_rule.map (fun fr => fr.format_type))
        == some FormatType.points_change then
      format_value var_value FormatType.points_change
    else format_value var_value FormatType.variance_percentage
  let runs := (slide.shapes.filterMap (fun s =>
    match s with
    | Shape.textbox tb => some tb.tf.paras
    | _ => Option.none)).flatten.map (fun p => p.runs) |>.flatten
  let found := runs.any (fun r => strContains r.text var_text)
  let mismatches := runs.filterMap (fun r =>
    if strContains r.text var_text then
      match r.color_hex with
      | some hex =>
        if strUpper hex != expected_hex then
          some ({ severity := "error", slide_index := ss.index,
                  slide_name := ss.name, slot_name := slot.name,
                  category := "variance_color",
                  message := "Variance \x27" ++ var_text ++ "\x27 color "
                    ++ strUpper hex ++ " != expected " ++ expected_hex } : Issue)
        else Option.none
      | Option.none => Option.none
    else Option.none)
  let warn : List Issue :=
    if !found then
      [{ severity := "warning", slide_index := ss.index, slide_name := ss.name,
         slot_name := slot.name, category := "variance_text_missing",
         message := "Variance text \x27" ++ var_text ++ "\x27 not found on slide" }]
    else []
  .ok (mismatches ++ warn)

/-- Embeds validator._check_kpi_slot. -/
def check_kpi_slot (slide : SlideA) (slot : DataSlot) (ss : SlideSchema)
    (payload : Payload) : Except PyErr (List Issue) := do
  let value := payload.getv slot.data_key
  let all_text := all_text_on_slide slide
  if is_missing value then
    if !strContains all_text "N/A" then
      .ok [{ severity := "warning", slide_index := ss.index, slide_name := ss.name,
             slot_name := slot.name, category := "kpi_missing_na",
             message := "KPI \x27" ++ slot.data_key
               ++ "\x27 is missing but N/A not found on slide" }]
    else .ok []
  else do
    let i1 ←
      match slot.format_rule with
      | some fr => do
        let formatted ← format_value value fr.format_type
        if !strContains all_text formatted then
          pure [({ severity := "error", slide_index := ss.index,
                   slide_name := ss.name, slot_name := slot.name,
                   category := "kpi_value_missing",
                   message := "Formatted KPI value \x27" ++ formatted
                     ++ "\x27 for \x27" ++ slot.data_key
                     ++ "\x27 not found on slide" } : Issue)]
        else pure []
      | Option.none => pure []
    let i2 : List Issue :=
      match slot.label with
      | some lbl =>
        if lbl != "" && !strContains all_text lbl then
          [{ severity := "warning", slide_index := ss.index, slide_name := ss.name,
             slot_name := slot.name, category := "kpi_label_missing",
             message := "KPI label \x27" ++ lbl ++ "\x27 not found on slide" }]
        else []
      | Option.none => []
    let i3 ←
      match slot.variance_key with
      | some vk =>
        if vk != "" then do
          let var_value := payload.getv vk
          if !is_missing var_value then
            check_variance_color slide slot ss var_value
          else pure []
        else pure []
      | Option.none => pure []
    .ok (i1 ++ i2 ++ i3)

/-- Embeds validator._check_table_variance_colors. -/
def check_table_variance_colors (t : TableShape) (slot : DataSlot)
    (ss : SlideSchema) (rows : List Value) : Except PyErr (List Issue) := do
  let parts ← slot.columns.enum.mapM (fun cp => do
    match cp.2.format_rule with
    | Option.none => pure ([] : List Issue)
    | some fr =>
      if fr.format_type != FormatType.variance_percentage
          && fr.format_type != FormatType.points_change then pure []
      else do
        let rparts ← ((rows.take (t.cells.length - 1)).enum.filter
            (fun _ => cp.1 < t.ncols)).mapM (fun rp => do
          let raw ← pyDictGet rp.2 cp.2.data_key
          if is_missing raw then pure ([] : List Issue)
          else do
            let col ← variance_color raw fr.positive_color fr.negative_color
              fr.neutral_color
            let expected_hex := strUpper (strLStrip col (Char.ofNat 35))
            let cell ← table_cell t (rp.1 + 1) cp.1
            pure ((cell.paras.map (fun p => p.runs)).flatten.filterMap (fun r =>
              match r.color_hex with
              | some hex =>
                if strUpper hex != expected_hex then
                  some ({ severity := "error", slide_index := ss.index,
                          slide_name := ss.name, slot_name := slot.name,
                          category := "table_variance_color",
                          message := "Cell [" ++ toString (rp.1 + 1) ++ ","
                            ++ toString cp.1 ++ "] variance color "
                            ++ strUpper hex ++ " != expected " ++ expected_hex
                            ++ " (value=" ++ pyStr raw ++ ")" } : Issue)
                else Option.none
              | Option.none => Option.none)))
        pure rparts.flatten)
  .ok parts.flatten

/-- Embeds validator._check_table_slot. -/
def check_table_slot (slide : SlideA) (slot : DataSlot) (ss : SlideSchema)
    (payload : Payload) : Except PyErr (List Issue) := do
  let rows_data : Value := table_rows_value slot payload
  let tables := table_shapes slide
  if !rows_data.truthy || slot.columns.isEmpty then .ok []
  else
    match tables with
    | [] =>
      .ok [{ severity := "error", slide_index := ss.index, slide_name := ss.name,
             slot_name := slot.name, category := "table_missing",
             message := "Table slot has data but no table shape on slide" }]
    | t0 :: _ => do
      let t :=
        match tables.find? (fun tb => tb.ncols == slot.columns.length) with
        | some tb => tb
        | Option.none => t0
      let nrows_data ← pyLen rows_data
      let expected_rows := nrows_data + 1
      let actual_rows := t.cells.length
      let i1 : List Issue :=
        if actual_rows != expected_rows then
          [{ severity := "error", slide_index := ss.index, slide_name := ss.name,
             slot_name := slot.name, category := "table_row_count",
             message := "Table has " ++ toString actual_rows ++ " rows, expected "
               ++ toString expected_rows ++ " (1 header + "
               ++ toString nrows_data ++ " data)" }]
        else []
      let expected_cols := slot.columns.length
      let actual_cols := t.ncols
      if actual_cols != expected_cols then
        .ok (i1 ++
          [{ severity := "error", slide_index := ss.index, slide_name := ss.name,
             slot_name := slot.name, category := "table_column_count",
             message := "Table has " ++ toString actual_cols
               ++ " columns, expected " ++ toString expected_cols }])
      else do
        let hdr ← slot.columns.enum.mapM (fun cp => do
          let cell ← table_cell t 0 cp.1
          let header_text := strStrip cell.text
          if header_text != cp.2.header then
            pure [({ severity := "error", slide_index := ss.index,
                     slide_name := ss.name, slot_name := slot.name,
                     category := "table_header",
                     message := "Column " ++ toString cp.1 ++ " header \x27"
                       ++ header_text ++ "\x27 != expected \x27"
                       ++ cp.2.header ++ "\x27" } : Issue)]
          else pure [])
        let rows ← pyList rows_data
        let cells ← ((rows.take (t.cells.length - 1)).enum).mapM (fun rp => do
          let colparts ← (slot.columns.enum.filter
              (fun cp => cp.1 < t.ncols)).mapM (fun cp => do
            let raw ← pyDictGet rp.2 cp.2.data_key
            let cell ← table_cell t (rp.1 + 1) cp.1
            let cell_text := strStrip cell.text
            match cp.2.format_rule with
            | some fr =>
              if !is_missing raw then do
                let expected_text ← format_value raw fr.format_type
                if cell_text != expected_text then
                  pure [({ severity := "error", slide_index := ss.index,
                           slide_name := ss.name, slot_name := slot.name,
                           category := "table_cell_format",
                           message := "Cell [" ++ toString (rp.1 + 1) ++ ","
                             ++ toString cp.1 ++ "] \x27" ++ cell_text
                             ++ "\x27 != expected \x27" ++ expected_text
                             ++ "\x27 (format: " ++ fr.format_type.value ++ ")" } : Issue)]
                else pure []
              else pure []
            | Option.none => pure [])
          pure colparts.flatten)
        let i4 ← check_table_variance_colors t slot ss rows
        .ok (i1 ++ hdr.flatten ++ cells.flatten ++ i4)

/-- Embeds validator._check_chart_slot (raise-free: all value accesses are
guarded by type tests). -/
def check_chart_slot (slide : SlideA) (slot : DataSlot) (ss : SlideSchema)
    (payload : Payload) : List Issue :=
  if !(match slot.chart_type with | some _ => true | Option.none => false)
      || slot.series.isEmpty then []
  else
    let charts := chart_shapes slide
    match charts with
    | [] =>
      let has_data := slot.series.any (fun s => !(payload.getv s.data_key).isNone)
      if has_data then
        [{ severity := "error", slide_index := ss.index, slide_name := ss.name,
           slot_name := slot.name, category := "chart_missing",
           message := "Chart slot has data but no chart shape on slide" }]
      else []
    | c0 :: rest =>
      let expected_type := slot.chart_type.map chart_type_map
      let matched :=
        match expected_type with
        | some et => charts.find? (fun cs => cs.xl_type == et)
        | Option.none => Option.none
      let chart :=
        match matched with
        | some cs => cs
        | Option.none =>
          let slot_left := Inches slot.position.left
          let slot_top := Inches slot.position.top
          let dist := fun (cs : ChartShape) =>
            (cs.left - slot_left).natAbs + (cs.top - slot_top).natAbs
          (rest.foldl (fun best cs => if dist cs < dist best then cs else best) c0)
      let i1 : List Issue :=
        match expected_type with
        | some et =>
          if chart.xl_type != et then
            [{ severity := "error", slide_index := ss.index, slide_name := ss.name,
               slot_name := slot.name, category := "chart_type",
               message := "Chart type " ++ chart.xl_type.pystr
                 ++ " != expected " ++ et.pystr }]
          else []
        | Option.none => []
      let i2 : List Issue :=
        if !is_doughnut_opt slot.chart_type then
          let withData := (slot.series.filter (fun s =>
            let v := payload.getv s.data_key
            !is_missing v && v.truthy)).length
          let expected_series :=
            if withData == 0 then slot.series.length else withData
          let actual_series := chart.series.length
          if actual_series != expected_series then
            [{ severity := "warning", slide_index := ss.index, slide_name := ss.name,
               slot_name := slot.name, category := "chart_series_count",
               message := "Chart has " ++ toString actual_series
                 ++ " series, expected " ++ toString expected_series }]
          else []
        else []
      let i3 : List Issue :=
        match slot.categories_key with
        | some ck =>
          if ck != "" then
            match payload.getv ck with
            | Value.list cl =>
              if cl.isEmpty then []
              else
                slot.series.filterMap (fun s =>
                  match payload.getv s.data_key with
                  | Value.list sl =>
                    if !sl.isEmpty && sl.length != cl.length then
                      some ({ severity := "error", slide_index := ss.index,
                              slide_name := ss.name, slot_name := slot.name,
                              category := "chart_data_length",
                              message := "Series \x27" ++ s.name ++ "\x27 has "
                                ++ toString sl.length ++ " values but "
                                ++ toString cl.length ++ " categories" } : Issue)
                    else Option.none
                  | _ => Option.none)
            | _ => []
          else []
        | Option.none => []
      i1 ++ i2 ++ i3

/-- Embeds validator._check_text_slot. -/
def check_text_slot (slide : SlideA) (slot : DataSlot) (ss : SlideSchema)
    (payload : Payload) : List Issue :=
  let value := payload.getv slot.data_key
  if is_missing value then []
  else
    let all_text := all_text_on_slide slide
    match value with
    | Value.list l =>
      l.filterMap (fun item =>
        let item_str := pyStr item
        if !strContains all_text item_str then
          some ({ severity := "warning", slide_index := ss.index,
                  slide_name := ss.name, slot_name := slot.name,
                  category := "text_content",
                  message := "List item \x27" ++ item_str
                    ++ "\x27 not found on slide" } : Issue)
        else Option.none)
    | Value.str s =>
      if s != "" && !strContains all_text s then
        [{ severity := "warning", slide_index := ss.index, slide_name := ss.name,
           slot_name := slot.name, category := "text_content",
           message := "Text \x27" ++ strTake s 60 ++ "\x27 not found on slide" }]
      else []
    | _ => []

/-- Embeds validator._check_slot: the checker dispatch table; image slots
have no checker and are skipped. -/
def check_slot (slide : SlideA) (slot : DataSlot) (ss : SlideSchema)
    (payload : Payload) : Except PyErr (List Issue) :=
  match slot.slot_type with
  | SlotType.kpi_value => check_kpi_slot slide slot ss payload
  | SlotType.table => check_table_slot slide slot ss payload
  | SlotType.chart => .ok (check_chart_slot slide slot ss payload)
  | SlotType.text => .ok (check_text_slot slide slot ss payload)
  | SlotType.static => .ok (check_text_slot slide slot ss payload)
  | SlotType.section_divider => .ok (check_text_slot slide slot ss payload)
  | SlotType.image => .ok []

/-- Embeds validator._check_slide: the divider background first, then
every slot in order. -/
def check_slide (design : DesignSystem) (slide : SlideA) (ss : SlideSchema)
    (payload : Payload) : Except PyErr (List Issue) := do
  let i0 :=
    if ss.slide_type == SlideType.divider
    then check_divider_background design slide ss else []
  let rest ← ss.slots.mapM (fun slot => check_slot slide slot ss payload)
  .ok (i0 ++ rest.flatten)

/-- Embeds QAValidator.validate up to the construction of the result:
presentation-level checks, then the per-slide checks only when the slide
count matches, locating each slide by its schema index. -/
def validate_run (schema : TemplateSchema) (pptx : Artifact) (payload : Payload) :
    Except PyErr QAResult := do
  let i1 := check_slide_count schema pptx
  let i2 := check_dimensions schema pptx
  let i3 := check_payload_coverage schema payload
  let i4 ←
    if pptx.slides.length == schema.slides.length then do
      let parts ← schema.slides.mapM (fun ss => do
        let slide ← py_index pptx.slides ss.index
        check_slide schema.design slide ss payload)
      pure parts.flatten
    else pure []
  .ok { issues := i1 ++ i2 ++ i3 ++ i4 }

/-- The validator object: it carries the schema it validates against and
nothing else (validator.QAValidator). -/
structure QAValidator where
  schema : TemplateSchema

/-- Embeds QAValidator.validate as a method: the result together with the
validator as it stands after the call — the method reads self.schema and
never assigns any attribute, so the validator comes back unchanged. -/
def QAValidator.validate (self : QAValidator) (pptx : Artifact)
    (payload : Payload) : (Except PyErr QAResult) × QAValidator :=
  (validate_run self.schema pptx payload, self)

/-- Spec-side series values for a category chart with m categories, as
the claim words them: an absent payload becomes a zero-filled list of
length m, a shorter list is right-padded with zeros, a longer list is
truncated to the first m entries, and every value is sanitized. -/
def spec_padded_series (m : ℕ) : Option (List Value) → List ℚ
  | Option.none => List.replicate m 0
  | some l =>
    if l.length < m then l.map safe_value ++ List.replicate (m - l.length) 0
    else (l.take m).map safe_value

/-- The payload lookup of a series key as an optional list. -/
def series_lookup (payload : Payload) (k : String) : Option (List Value) :=
  match payload.getv k with
  | Value.list l => some l
  | _ => Option.none

/-- The series lengths of every chart shape a render produced. -/
def chart_series_lengths : Except PyErr (List Shape) → List (List ℕ)
  | .ok shapes => shapes.filterMap (fun s =>
      match s with
      | Shape.chart c => some (c.series.map (fun p => p.2.length))
      | _ => Option.none)
  | .error _ => []

/-- The legend states of every chart shape a render produced. -/
def chart_legends : Except PyErr (List Shape) → List LegendState
  | .ok shapes => shapes.filterMap (fun s =>
      match s with
      | Shape.chart c => some c.legend
      | _ => Option.none)
  | .error _ => []

/-- Whether a cell value can be formatted and variance-colored by the
table renderer without raising: container values need the text kind, an
infinity must not meet the integer kind, and variance-colored columns
need numeric or missing values. -/
def cell_ok (fr : Option FormatRule) (v : Value) : Bool :=
  match fr with
  | Option.none => true
  | some r =>
    (match v with
     | Value.list _ => r.format_type == FormatType.text
     | Value.dict _ => r.format_type == FormatType.text
     | Value.num PyFloat.inf => r.format_type != FormatType.integer
     | Value.num PyFloat.ninf => r.format_type != FormatType.integer
     | _ => true)
    &&
    (if r.format_type == FormatType.variance_percentage
        || r.format_type == FormatType.points_change then
      match v with
      | Value.str _ => false
      | Value.list _ => false
      | Value.dict _ => false
      | _ => true
     else true)

/-- A category chart slot whose one series is shorter than its two
categories, for exercising the builder's chart path. -/
def c4_cex_slot : DataSlot :=
  { name := "trend", slot_type := SlotType.chart, data_key := "c.chart",
    position := ⟨1, 1, 8, 4⟩, chart_type := some ChartType.column_clustered,
    categories_key := some "c.cats",
    series := [{ name := "S", data_key := "c.s" }] }

/-- Two categories but only one series value. -/
def c4_cex_payload : Payload :=
  [("c.cats", Value.list [Value.str "A", Value.str "B"]),
   ("c.s", Value.list [Value.num (PyFloat.fin 5)])]

/-- A category chart slot with three series: one absent from the payload,
one short and one long with an invalid entry. -/
def c4_slot : DataSlot :=
  { name := "trend", slot_type := SlotType.chart, data_key := "c.chart",
    position := ⟨1, 1, 8, 4⟩, chart_type := some ChartType.column_clustered,
    categories_key := some "c.cats",
    series := [{ name := "s1", data_key := "c.s1" },
               { name := "s2", data_key := "c.s2" },
               { name := "s3", data_key := "c.s3" }] }

/-- Three categories; s1 absent, s2 of length two, s3 of length four with
a NaN first entry. -/
def c4_payload : Payload :=
  [("c.cats", Value.list [Value.str "A", Value.str "B", Value.str "C"]),
   ("c.s2", Value.list [Value.num (PyFloat.fin 1), Value.num (PyFloat.fin 2)]),
   ("c.s3", Value.list [Value.num PyFloat.nan, Value.num (PyFloat.fin 2),
                        Value.num (PyFloat.fin 3), Value.num (PyFloat.fin 4)])]

/-- The chart data the chart subsystem builds for the three-series slot:
the absent series zero-filled, the short one right-padded, the long one
truncated with its NaN sanitized to zero. -/
def c4_chart_data : ChartData :=
  { categories := [Value.str "A", Value.str "B", Value.str "C"],
    series := [("s1", [0, 0, 0]), ("s2", [1, 2, 0]), ("s3", [0, 2, 3])] }

/-- A doughnut chart slot with two series, for the builder legend
counterexample. -/
def c5_cex_slot : DataSlot :=
  { name := "gauge", slot_type := SlotType.chart, data_key := "d.gauge",
    position := ⟨1, 5, 2, 2⟩, chart_type := some ChartType.doughnut,
    series := [{ name := "Achieved", data_key := "d.a" },
               { name := "Remaining", data_key := "d.b" }] }

/-- Non-missing scalar values for both doughnut slices. -/
def c5_cex_payload : Payload :=
  [("d.a", Value.num (PyFloat.fin (mkRat 17 20))),
   ("d.b", Value.num (PyFloat.fin (mkRat 3 20)))]

/-- A doughnut slot with one colored slice, for the chart-subsystem
legend witness. -/
def c5_donut_slot : DataSlot :=
  { name := "gauge", slot_type := SlotType.chart, data_key := "d.gauge",
    position := ⟨1, 5, 2, 2⟩, chart_type := some ChartType.doughnut,
    series := [{ name := "Achieved", data_key := "d.a", color := some "#0065E0" },
               { name := "Remaining", data_key := "d.b" }] }

/-- A two-series column chart slot over two categories. -/
def c5_column_slot : DataSlot :=
  { name := "trend", slot_type := SlotType.chart, data_key := "c.chart",
    position := ⟨1, 1, 8, 4⟩, chart_type := some ChartType.column_clustered,
    categories_key := some "c.cats",
    series := [{ name := "A", data_key := "c.a" },
               { name := "B", data_key := "c.b" }] }

/-- Categories and both series present. -/
def c5_column_payload : Payload :=
  [("c.cats", Value.list [Value.str "M1", Value.str "M2"]),
   ("c.a", Value.list [Value.num (PyFloat.fin 1), Value.num (PyFloat.fin 2)]),
   ("c.b", Value.list [Value.num (PyFloat.fin 3), Value.num (PyFloat.fin 4)])]

/-- A table slot with a plain currency column and a variance column. -/
def c6_slot : DataSlot :=
  { name := "rev_table", slot_type := SlotType.table, data_key := "t.table",
    position := ⟨1, 1, 10, 4⟩, row_data_key := some "t.rows",
    columns := [
      { header := "Revenue", data_key := "rev",
        format_rule := some { format_type := FormatType.currency } },
      { header := "Delta", data_key := "delta",
        format_rule := some { format_type := FormatType.variance_percentage } }] }

/-- Two well-typed row dicts for the table slot. -/
def c6_payload : Payload :=
  [("t.rows", Value.list [
      Value.dict [("rev", Value.num (PyFloat.fin 209200)),
                  ("delta", Value.num (PyFloat.fin (mkRat 26 5)))],
      Value.dict [("rev", Value.num (PyFloat.fin 1000)),
                  ("delta", Value.num (PyFloat.fin (-3)))]])]

/-- A non-chart slot, for the chart contract violation witness. -/
def c7_text_slot : DataSlot :=
  { name := "note", slot_type := SlotType.text, data_key := "n.note",
    position := ⟨1, 1, 4, 1⟩ }

/-- A well-formed doughnut slot, for the no-raise witness. -/
def c7_donut_slot : DataSlot :=
  { name := "gauge", slot_type := SlotType.chart, data_key := "d.gauge",
    position := ⟨1, 5, 2, 2⟩, chart_type := some ChartType.doughnut,
    series := [{ name := "A", data_key := "d.a" }] }

/-- A schema whose single slide declares index 1, outside the range of a
one-slide artifact. -/
def c8_bad_schema : TemplateSchema :=
  { name := "bad", report_type := "monthly", width_inches := 10,
    height_inches := 5, design := {},
    slides := [{ index := 1, name := "a", title := "A",
                 slide_type := SlideType.data, data_source := "d" }] }

/-- A one-slide artifact with the matching canvas. -/
def c8_bad_artifact : Artifact :=
  { slide_width := Inches 10, slide_height := Inches 5, slides := [{}] }

/-- A trivial schema with no slides. -/
def c8_ok_schema : TemplateSchema :=
  { name := "ok", report_type := "monthly", width_inches := 10,
    height_inches := 5, design := {}, slides := [] }

/-- The empty artifact matching c8_ok_schema. -/
def c8_ok_artifact : Artifact :=
  { slide_width := Inches 10, slide_height := Inches 5, slides := [] }

instance : DecidableEq (Except PyErr String) := fun a b =>
  match a, b with
  | .ok x, .ok y =>
    if h : x = y then isTrue (by rw [h]) else isFalse (by intro hc; cases hc; exact h rfl)
  | .error x, .error y =>
    if h : x = y then isTrue (by rw [h]) else isFalse (by intro hc; cases hc; exact h rfl)
  | .ok _, .error _ => isFalse (by intro hc; cases hc)
  | .error _, .ok _ => isFalse (by intro hc; cases hc)

/-- Spec-side rendering of the claimed currency tiers, boundary at
1,000,000: sign, then dollar, then comma-grouped integer below 1,000;
divide by 1,000, one decimal, strip a trailing dot-zero, append k below
1,000,000; divide by 1,000,000, exactly one decimal, append m above. -/
def spec_currency_claim (q : ℚ) : String :=
  let sign := if q < 0 then "-" else ""
  let v := ratAbs q
  if v < 1000 then sign ++ "$" ++ fmtComma0 v
  else if v < 1000000 then
    let f := fmtFixed1 (ratDivNat v 1000)
    sign ++ "$" ++ (if strEndsWith f ".0" then strDropRight f 2 else f) ++ "k"
  else sign ++ "$" ++ fmtFixed1 (ratDivNat v 1000000) ++ "m"

/-- Spec-side rendering of the amended currency tiers: identical to the
claimed tiers except that the k tier ends at 999,950, the point from
which the one-decimal k form would round to "1000.0k". -/
def spec_currency_amended (q : ℚ) : String :=
  let sign := if q < 0 then "-" else ""
  let v := ratAbs q
  if v < 1000 then sign ++ "$" ++ fmtComma0 v
  else if v < 999950 then
    let f := fmtFixed1 (ratDivNat v 1000)
    sign ++ "$" ++ (if strEndsWith f ".0" then strDropRight f 2 else f) ++ "k"
  else sign ++ "$" ++ fmtFixed1 (ratDivNat v 1000000) ++ "m"

/-- C1 counterexample: at 999,975 the code emits the m-tier string
"$1.0m", while the claimed tiers (k tier up to 1,000,000) would emit
"$1000k", so the k tier does not extend to every magnitude below
1,000,000. -/
theorem c1_currency_claim_cex :
    format_value (Value.num (PyFloat.fin 999975)) FormatType.currency = Except.ok "$1.0m"
    ∧ spec_currency_claim 999975 = "$1000k"
    ∧ ("$1.0m" : String) ≠ "$1000k" := by
  refine ⟨by decide, by decide, by decide⟩

/-- C1 (amended): currency formatting of every finite numeric value
follows the three magnitude tiers with boundaries 1,000 and 999,950 —
below 1,000 the sign, dollar and comma-grouped integer; from 1,000 up to
999,950 the value divided by 1,000 to one decimal with a trailing
dot-zero stripped and k appended; from 999,950 on the value divided by
1,000,000 to exactly one decimal with m appended — and the spec examples
format(999) = "$999", format(1000) = "$1k", format(1234567) = "$1.2m"
all hold. -/
theorem c1_currency_tiers :
    (∀ q : ℚ, format_value (Value.num (PyFloat.fin q)) FormatType.currency
      = Except.ok (spec_currency_amended q))
    ∧ format_value (Value.num (PyFloat.fin 999)) FormatType.currency = Except.ok "$999"
    ∧ format_value (Value.num (PyFloat.fin 1000)) FormatType.currency = Except.ok "$1k"
    ∧ format_value (Value.num (PyFloat.fin 1234567)) FormatType.currency = Except.ok "$1.2m" := by
  refine ⟨fun q => ?_, by decide, by decide, by decide⟩
  show format_currency (Value.num (PyFloat.fin q)) = _
  unfold format_currency spec_currency_amended
  by_cases h1 : ratAbs q < 1000 <;> by_cases h0 : q < 0 <;>
    by_cases h2 : ratAbs q < 999950 <;>
    simp [is_missing, pyAbs, pyLtZ, pyLtC, pyDivC, pyFmt1, pyFmtComma0, h1, h0, h2]

/-- C2 counterexample: an infinite value is not mapped to the sentinel —
currency formatting of positive infinity yields "$infm", and NaN under the
text kind yields "nan", not "N/A". -/
theorem c2_missing_sentinel_cex :
    format_value (Value.num PyFloat.inf) FormatType.currency = Except.ok "$infm"
    ∧ format_value (Value.num PyFloat.nan) FormatType.text = Except.ok "nan"
    ∧ ("$infm" : String) ≠ "N/A" ∧ ("nan" : String) ≠ "N/A" := by
  refine ⟨by decide, by decide, by decide, by decide⟩

/-- C2 (amended): formatting an absent value (None) yields "N/A" for every
format kind; a NaN yields "N/A" for every kind except text, where it
yields "nan"; infinities are not treated as missing — currency formats
them as "$infm" and "-$infm", and the integer kind raises OverflowError
on them. -/
theorem c2_missing_values :
    (∀ ft : FormatType, format_value Value.none ft = Except.ok "N/A")
    ∧ (∀ ft : FormatType, format_value (Value.num PyFloat.nan) ft
        = Except.ok (if ft = FormatType.text then "nan" else "N/A"))
    ∧ format_value (Value.num PyFloat.inf) FormatType.currency = Except.ok "$infm"
    ∧ format_value (Value.num PyFloat.ninf) FormatType.currency = Except.ok "-$infm"
    ∧ format_value (Value.num PyFloat.inf) FormatType.integer = Except.error PyErr.overflowError
    ∧ format_value (Value.num PyFloat.ninf) FormatType.integer = Except.error PyErr.overflowError := by
  refine ⟨fun ft => ?_, fun ft => ?_, by decide, by decide, by decide, by decide⟩
  · cases ft <;> decide
  · cases ft <;> decide

/-- C9: variance_color returns the neutral color for an absent value, a
NaN and exactly zero, the positive color for strictly positive values and
the negative color for strictly negative values. -/
theorem c9_variance_color :
    (∀ p n u : String, variance_color Value.none p n u = Except.ok u)
    ∧ (∀ p n u : String, variance_color (Value.num PyFloat.nan) p n u = Except.ok u)
    ∧ (∀ p n u : String, variance_color (Value.num (PyFloat.fin 0)) p n u = Except.ok u)
    ∧ (∀ (p n u : String) (q : ℚ), 0 < q →
        variance_color (Value.num (PyFloat.fin q)) p n u = Except.ok p)
    ∧ (∀ (p n u : String) (q : ℚ), q < 0 →
        variance_color (Value.num (PyFloat.fin q)) p n u = Except.ok n) := by
  refine ⟨fun p n u => rfl, fun p n u => rfl,
    fun p n u => by simp [variance_color, is_missing, pyGtZ, pyLtZ],
    fun p n u q h => ?_, fun p n u q h => ?_⟩
  · simp [variance_color, is_missing, pyGtZ, h]
  · simp [variance_color, is_missing, pyGtZ, pyLtZ, h, not_lt_of_gt h]

/-- C9 witness: the spec examples, with an explicit color triple. -/
theorem c9_variance_color_witness :
    variance_color (Value.num (PyFloat.fin 5)) "#P" "#N" "#U" = Except.ok "#P"
    ∧ variance_color (Value.num (PyFloat.fin (-5))) "#P" "#N" "#U" = Except.ok "#N"
    ∧ variance_color (Value.num (PyFloat.fin 0)) "#P" "#N" "#U" = Except.ok "#U" :=
  ⟨c9_variance_color.2.2.2.1 "#P" "#N" "#U" 5 (by norm_num),
   c9_variance_color.2.2.2.2 "#P" "#N" "#U" (-5) (by norm_num),
   c9_variance_color.2.2.1 "#P" "#N" "#U"⟩

/-- C10: a string payload value is returned verbatim by format_value for
every format kind, bypassing numeric tiering and missing-value handling. -/
theorem c10_string_passthrough (s : String) (ft : FormatType) :
    format_value (Value.str s) ft = Except.ok s := rfl

/-- C3 counterexample: deserializing an input whose slide index is 3, whose
slots share a name and whose data keys lack the namespace separator
succeeds and yields a fully usable schema object, so construction does
not fail on ill-formed input. -/
theorem c3_construction_cex :
    TemplateSchema.from_dict c3_bad_dict = Except.ok c3_bad_schema
    ∧ schema_well_formed c3_bad_schema = false
    ∧ c3_bad_schema.get_slide "slide_one" = some c3_bad_slide := by
  refine ⟨rfl, rfl, rfl⟩

/-- If f succeeds with g x on every element of l, then mapM f over l
succeeds with the pointwise map. -/
theorem mapM_ok_of_forall {α β : Type} (f : α → Except PyErr β) (g : α → β)
    (l : List α) (h : ∀ x ∈ l, f x = .ok (g x)) :
    l.mapM f = .ok (l.map g) := by
  induction l with
  | nil => rfl
  | cons a t ih =>
    rw [List.mapM_cons, h a (List.mem_cons_self a t),
      ih (fun x hx => h x (List.mem_cons_of_mem a hx))]
    rfl

/-- If f succeeds on every element of l with a result satisfying P, then
mapM f over l succeeds with a list of the same length all of whose
entries satisfy P. -/
theorem mapM_ok_exists {α β : Type} (f : α → Except PyErr β) (P : β → Prop)
    (l : List α) (h : ∀ x ∈ l, ∃ y, f x = .ok y ∧ P y) :
    ∃ ys, l.mapM f = .ok ys ∧ ys.length = l.length ∧ ∀ y ∈ ys, P y := by
  induction l with
  | nil => exact ⟨[], rfl, rfl, by simp⟩
  | cons a t ih =>
    obtain ⟨y, hy, hP⟩ := h a (List.mem_cons_self a t)
    obtain ⟨ys, hys, hlen, hall⟩ := ih (fun x hx => h x (List.mem_cons_of_mem a hx))
    refine ⟨y :: ys, ?_, by simp [hlen], ?_⟩
    · rw [List.mapM_cons, hy, hys]; rfl
    · intro z hz
      rcases List.mem_cons.mp hz with h1 | h2
      · exact h1 ▸ hP
      · exact hall z h2

/-- C8 counterexample: validate can throw — with a schema whose only slide
declares index 1 and an artifact of one slide, the slide-count guard
passes and the per-slide lookup raises IndexError instead of returning a
report. -/
theorem c8_validate_throws_cex :
    ((QAValidator.mk c8_bad_schema).validate c8_bad_artifact []).1
      = Except.error PyErr.indexError := rfl

/-- C8 (amended): validation is deterministic and stateless — a validate
call leaves the validator unchanged, and a second call on the same inputs
returns a report with identical issues in identical order, hence the same
error and warning counts and the same passed flag; however validate does
not always return a report, as it can raise on out-of-range slide
indices. -/
theorem c8_validate_deterministic :
    ∀ (v : QAValidator) (a : Artifact) (p : Payload),
      ((v.validate a p).2 = v)
      ∧ ∀ r₁ r₂ : QAResult,
          (v.validate a p).1 = Except.ok r₁ →
          (((v.validate a p).2).validate a p).1 = Except.ok r₂ →
          r₁.issues = r₂.issues ∧ r₁.error_count = r₂.error_count
            ∧ r₁.warning_count = r₂.warning_count ∧ r₁.passed = r₂.passed := by
  intro v a p
  refine ⟨rfl, ?_⟩
  intro r₁ r₂ h₁ h₂
  have h : r₁ = r₂ := by
    have h₂x : (v.validate a p).1 = Except.ok r₂ := h₂
    rw [h₁] at h₂x
    exact (Except.ok.inj h₂x)
  subst h
  exact ⟨rfl, rfl, rfl, rfl⟩

/-- C8 witness: two successive validate calls on a concrete schema,
artifact and payload leave the validator unchanged and agree on issues
and counts. -/
theorem c8_validate_deterministic_witness :
    ((QAValidator.mk c8_ok_schema).validate c8_ok_artifact []).2
      = QAValidator.mk c8_ok_schema
    ∧ (({ issues := [] } : QAResult).issues = ({ issues := [] } : QAResult).issues
        ∧ ({ issues := [] } : QAResult).error_count = ({ issues := [] } : QAResult).error_count
        ∧ ({ issues := [] } : QAResult).warning_count = ({ issues := [] } : QAResult).warning_count
        ∧ ({ issues := [] } : QAResult).passed = ({ issues := [] } : QAResult).passed) :=
  ⟨(c8_validate_deterministic (QAValidator.mk c8_ok_schema) c8_ok_artifact []).1,
   (c8_validate_deterministic (QAValidator.mk c8_ok_schema) c8_ok_artifact []).2
     { issues := [] } { issues := [] } rfl rfl⟩

/-- Every series entry the chart data builder produces succeeds when the
series key holds no bare number (absent keys, lists, strings and dicts
are all handled). -/
theorem build_series_entry_ok (payload : Payload) (m : ℕ) (sd : ChartSeries)
    (h : ¬ ∃ x, payload.getv sd.data_key = Value.num x) :
    ∃ y, build_series_entry payload m sd = .ok y := by
  unfold build_series_entry
  cases hv : payload.getv sd.data_key with
  | none => exact ⟨_, rfl⟩
  | num x => exact absurd ⟨x, hv⟩ h
  | str s =>
    simp only [pyList, Bind.bind, Except.bind, Pure.pure, Except.pure]
    split
    · exact ⟨_, rfl⟩
    · split <;> exact ⟨_, rfl⟩
  | list l =>
    simp only [pyList, Bind.bind, Except.bind, Pure.pure, Except.pure]
    split
    · exact ⟨_, rfl⟩
    · split <;> exact ⟨_, rfl⟩
  | dict d =>
    simp only [pyList, Bind.bind, Except.bind, Pure.pure, Except.pure]
    split
    · exact ⟨_, rfl⟩
    · split <;> exact ⟨_, rfl⟩

/-- The series loop of the chart data builder never raises when no series
value is a bare number. -/
theorem build_series_list_ok (payload : Payload) (m : ℕ)
    (series : List ChartSeries)
    (hser : ∀ sd ∈ series, ¬ ∃ x, payload.getv sd.data_key = Value.num x) :
    ∃ ys, build_series_list payload m series = .ok ys := by
  unfold build_series_list
  obtain ⟨ys, hys, -, -⟩ := mapM_ok_exists
    (build_series_entry payload m) (fun _ => True) series
    (fun sd hsd => by
      obtain ⟨y, hy⟩ := build_series_entry_ok payload m sd (hser sd hsd)
      exact ⟨y, hy, trivial⟩)
  exact ⟨ys, hys⟩

/-- The category chart data builder never raises when no relevant payload
value is a bare number. -/
theorem build_category_chart_data_ok (slot : DataSlot) (payload : Payload)
    (hser : ∀ sd ∈ slot.series, ¬ ∃ x, payload.getv sd.data_key = Value.num x)
    (hcats : ∀ ck, slot.categories_key = some ck →
      ¬ ∃ x, payload.getv ck = Value.num x) :
    ∃ o, build_category_chart_data slot payload = .ok o := by
  unfold build_category_chart_data
  cases hck : slot.categories_key with
  | none => exact ⟨_, rfl⟩
  | some ck =>
    by_cases hempty : ck == ""
    · simp only [hempty, if_true, reduceIte]
      exact ⟨_, rfl⟩
    · simp only [hempty, Bool.false_eq_true, if_false, reduceIte]
      obtain ⟨ys, hys⟩ :
          ∃ ys, build_series_list payload ((pyLen (payload.getv ck)).toOption.getD 0)
            slot.series = .ok ys :=
        build_series_list_ok payload _ slot.series hser
      cases hv : payload.getv ck with
      | none => exact ⟨_, rfl⟩
      | num x => exact absurd ⟨x, hv⟩ (hcats ck hck)
      | str s =>
        rw [hv] at hys
        by_cases ht : (Value.str s).truthy
        · by_cases hse : slot.series.isEmpty
          · simp only [ht, hse, Bool.not_true, if_false, if_true, reduceIte]
            exact ⟨_, rfl⟩
          · simp only [ht, hse, Bool.not_true, if_false, reduceIte, pyLen, pyList,
              Bind.bind, Except.bind, Except.toOption, Option.getD] at hys ⊢
            rw [hys]
            exact ⟨_, rfl⟩
        · simp only [ht, Bool.not_false, if_true, reduceIte]
          exact ⟨_, rfl⟩
      | list l =>
        rw [hv] at hys
        by_cases ht : (Value.list l).truthy
        · by_cases hse : slot.series.isEmpty
          · simp only [ht, hse, Bool.not_true, if_false, if_true, reduceIte]
            exact ⟨_, rfl⟩
          · simp only [ht, hse, Bool.not_true, if_false, reduceIte, pyLen, pyList,
              Bind.bind, Except.bind, Except.toOption, Option.getD] at hys ⊢
            rw [hys]
            exact ⟨_, rfl⟩
        · simp only [ht, Bool.not_false, if_true, reduceIte]
          exact ⟨_, rfl⟩
      | dict d =>
        rw [hv] at hys
        by_cases ht : (Value.dict d).truthy
        · by_cases hse : slot.series.isEmpty
          · simp only [ht, hse, Bool.not_true, if_false, if_true, reduceIte]
            exact ⟨_, rfl⟩
          · simp only [ht, hse, Bool.not_true, if_false, reduceIte, pyLen, pyList,
              Bind.bind, Except.bind, Except.toOption, Option.getD] at hys ⊢
            rw [hys]
            exact ⟨_, rfl⟩
        · simp only [ht, Bool.not_false, if_true, reduceIte]
          exact ⟨_, rfl⟩

/-- C7: invoking the chart render routine on a slot whose kind is not
chart, or whose chart type is unset, raises ValueError; and this contract
violation is the only fatal case — on a chart slot with a chart type,
add_chart returns normally for every payload whose relevant values are
absent or non-numeric containers, missing data degrading to a skip
rather than an error. -/
theorem c7_chart_contract :
    (∀ (slot : DataSlot) (payload : Payload) (design : DesignSystem),
      (slot.slot_type ≠ SlotType.chart ∨ slot.chart_type = Option.none) →
      add_chart slot payload design = Except.error PyErr.valueError)
    ∧ (∀ (slot : DataSlot) (payload : Payload) (design : DesignSystem)
         (ct : ChartType),
        slot.slot_type = SlotType.chart → slot.chart_type = some ct →
        (∀ sd ∈ slot.series, ¬ ∃ x, payload.getv sd.data_key = Value.num x) →
        (∀ ck, slot.categories_key = some ck →
          ¬ ∃ x, payload.getv ck = Value.num x) →
        ∃ r, add_chart slot payload design = Except.ok r) := by
  constructor
  · intro slot payload design h
    unfold add_chart
    by_cases hst : slot.slot_type = SlotType.chart
    · rcases h with h | h
      · exact absurd hst h
      · simp only [hst, h, bne_self_eq_false, if_false, reduceIte]
        rfl
    · have hb : (slot.slot_type != SlotType.chart) = true := by
        simp [bne_iff_ne, hst]
      simp only [hb, if_true, reduceIte]
      rfl
  · intro slot payload design ct hst hct hser hcats
    unfold add_chart
    simp only [hst, hct, bne_self_eq_false, if_false, reduceIte]
    by_cases hd : is_doughnut ct
    · simp only [hd, if_true, reduceIte]
      cases build_doughnut_chart_data slot payload with
      | none => exact ⟨_, rfl⟩
      | some cd => exact ⟨_, rfl⟩
    · simp only [hd, Bool.false_eq_true, if_false, reduceIte]
      obtain ⟨o, ho⟩ := build_category_chart_data_ok slot payload hser hcats
      cases o with
      | none =>
        simp only [ho, Bind.bind, Except.bind]
        exact ⟨_, rfl⟩
      | some cd =>
        simp only [ho, Bind.bind, Except.bind]
        exact ⟨_, rfl⟩

/-- C7 witness: the chart routine on a text slot raises, and on a chart
slot with an empty payload it returns normally. -/
theorem c7_chart_contract_witness :
    add_chart c7_text_slot [] {} = Except.error PyErr.valueError
    ∧ ∃ r, add_chart c7_donut_slot [] {} = Except.ok r :=
  ⟨c7_chart_contract.1 c7_text_slot [] {} (Or.inl (by decide)),
   c7_chart_contract.2 c7_donut_slot [] {} ChartType.doughnut rfl rfl
     (by intro sd hsd; simp [c7_donut_slot] at hsd; subst hsd
         intro ⟨x, hx⟩; simp [Payload.getv] at hx)
     (by intro ck hck; simp [c7_donut_slot] at hck)⟩

/-- The series-coloring pass of the chart subsystem leaves the legend
untouched. -/
theorem apply_series_colors_legend (c : ChartShape) (slot : DataSlot) :
    (apply_series_colors c slot).legend = c.legend := by
  simp only [apply_series_colors]
  split_ifs <;> rfl

/-- The styling pass of the chart subsystem sets the legend exactly by the
doughnut test and the declared series count. -/
theorem apply_chart_style_legend (c : ChartShape) (slot : DataSlot)
    (design : DesignSystem) :
    (apply_chart_style c slot design).legend =
      (if is_doughnut_opt slot.chart_type then LegendState.hidden
       else if slot.series.length > 1 then LegendState.bottom
       else LegendState.hidden) := by
  simp only [apply_chart_style]
  split_ifs <;> rfl

/-- The builder color pass leaves the legend untouched. -/
theorem builder_apply_colors_legend (c : ChartShape) (slot : DataSlot) :
    (builder_apply_colors c slot).legend = c.legend := rfl

/-- C5 (amended): charts produced by the chart subsystem follow the legend
policy — hidden for doughnuts, hidden for a single declared series, bottom
for two or more — while every chart the document builder's own chart
routine renders carries a bottom legend regardless of chart type or
series count. -/
theorem c5_legend_policy :
    (∀ (slot : DataSlot) (payload : Payload) (design : DesignSystem)
       (c : ChartShape) (ct : ChartType),
      slot.chart_type = some ct →
      add_chart slot payload design = Except.ok (some c) →
      c.legend = (if is_doughnut ct then LegendState.hidden
                  else if 1 < slot.series.length then LegendState.bottom
                  else LegendState.hidden))
    ∧ (∀ (design : DesignSystem) (slot : DataSlot) (payload : Payload)
         (shapes : List Shape) (c : ChartShape),
        render_chart design slot payload = Except.ok shapes →
        Shape.chart c ∈ shapes →
        c.legend = LegendState.bottom) := by
  constructor
  · intro slot payload design c ct hct h
    unfold add_chart at h
    by_cases hst : (slot.slot_type != SlotType.chart) = true
    · rw [if_pos hst] at h
      exact Except.noConfusion h
    · rw [if_neg hst, hct] at h
      simp only [Bind.bind, Except.bind, pure, Except.pure] at h
      split at h
      · cases hbd : build_doughnut_chart_data slot payload with
        | none =>
          rw [hbd] at h
          exact Option.noConfusion (Except.ok.inj h)
        | some cd =>
          rw [hbd] at h
          have hc := Option.some.inj (Except.ok.inj h)
          rw [← hc, apply_chart_style_legend, hct]
          rfl
      · cases hb : build_category_chart_data slot payload with
        | error e =>
          rw [hb] at h
          exact Except.noConfusion h
        | ok cd? =>
          rw [hb] at h
          simp only [Except.bind] at h
          cases cd? with
          | none => exact Option.noConfusion (Except.ok.inj h)
          | some cd =>
            have hc := Option.some.inj (Except.ok.inj h)
            rw [← hc, apply_chart_style_legend, hct]
            rfl
  · intro design slot payload shapes c h hm
    unfold render_chart at h
    cases hct : slot.chart_type with
    | none =>
      rw [hct] at h
      simp only [Bind.bind, Except.bind, pure, Except.pure] at h
      rw [← Except.ok.inj h] at hm
      simp [render_placeholder] at hm
    | some ct =>
      rw [hct] at h
      simp only [Bind.bind, Except.bind, pure, Except.pure] at h
      split at h
      · -- empty series → placeholder
        rw [← Except.ok.inj h] at hm
        simp [render_placeholder] at hm
      · split at h
        · -- category path with truthy categories
          cases hl : pyList (builder_categories slot payload) with
          | error e =>
            rw [hl] at h
            exact Except.noConfusion h
          | ok citems =>
            rw [hl] at h
            cases hbs : builder_series_list payload
                (builder_categories slot payload) slot.series with
            | error e =>
              rw [hbs] at h
              exact Except.noConfusion h
            | ok ser =>
              rw [hbs] at h
              rw [← Except.ok.inj h] at hm
              rcases List.mem_singleton.mp hm with hmm
              have := congrArg (fun s => match s with
                | Shape.chart cc => cc.legend
                | _ => LegendState.bottom) hmm
              simpa [builder_apply_colors_legend] using this
        · split at h
          · -- doughnut special path
            rw [← Except.ok.inj h] at hm
            rcases List.mem_singleton.mp hm with hmm
            have := congrArg (fun s => match s with
              | Shape.chart cc => cc.legend
              | _ => LegendState.bottom) hmm
            simpa using this
          · -- category path without categories
            cases hbs : builder_series_list payload
                (builder_categories slot payload) slot.series with
            | error e =>
              rw [hbs] at h
              exact Except.noConfusion h
            | ok ser =>
              rw [hbs] at h
              rw [← Except.ok.inj h] at hm
              rcases List.mem_singleton.mp hm with hmm
              have := congrArg (fun s => match s with
                | Shape.chart cc => cc.legend
                | _ => LegendState.bottom) hmm
              simpa [builder_apply_colors_legend] using this

/-- C5 counterexample: the builder renders a doughnut chart with a shown
bottom legend, so the legend is not hidden for every rendered donut
chart. -/
theorem c5_builder_legend_cex :
    chart_legends (render_chart {} c5_cex_slot c5_cex_payload)
      = [LegendState.bottom]
    ∧ LegendState.bottom ≠ LegendState.hidden := ⟨rfl, by decide⟩

/-- C5 witness: the chart subsystem hides the legend on a doughnut and
shows a bottom legend on a two-series column chart, and the builder path
produces a bottom legend on the doughnut slot. -/
theorem c5_legend_policy_witness :
    (∃ c, add_chart c5_donut_slot c5_cex_payload {} = Except.ok (some c)
      ∧ c.legend = LegendState.hidden)
    ∧ (∃ c, add_chart c5_column_slot c5_column_payload {} = Except.ok (some c)
      ∧ c.legend = LegendState.bottom)
    ∧ (∃ shapes c, render_chart {} c5_cex_slot c5_cex_payload = Except.ok shapes
      ∧ Shape.chart c ∈ shapes ∧ c.legend = LegendState.bottom) := by
  refine ⟨?_, ?_, ?_⟩
  · obtain ⟨c, hc⟩ : ∃ c, add_chart c5_donut_slot c5_cex_payload {}
        = Except.ok (some c) := ⟨_, rfl⟩
    exact ⟨c, hc,
      (c5_legend_policy.1 c5_donut_slot c5_cex_payload {} c ChartType.doughnut
        rfl hc).trans rfl⟩
  · obtain ⟨c, hc⟩ : ∃ c, add_chart c5_column_slot c5_column_payload {}
        = Except.ok (some c) := ⟨_, rfl⟩
    exact ⟨c, hc,
      (c5_legend_policy.1 c5_column_slot c5_column_payload {} c
        ChartType.column_clustered rfl hc).trans rfl⟩
  · obtain ⟨shapes, c, hs, hmem⟩ : ∃ shapes c,
        render_chart {} c5_cex_slot c5_cex_payload = Except.ok shapes
        ∧ Shape.chart c ∈ shapes :=
      ⟨_, _, rfl, List.mem_singleton.mpr rfl⟩
    exact ⟨shapes, c, hs, hmem,
      c5_legend_policy.2 {} c5_cex_slot c5_cex_payload shapes c hs hmem⟩

/-- C3 (amended): schema construction performs no well-formedness
validation — from_dict accepts out-of-order slide indices, duplicate slot
names and non-namespaced data keys and returns a usable schema (slide
lookup and data-key collection work); it fails only on missing required
keys or unknown enum value strings. -/
theorem c3_construction_unvalidated :
    TemplateSchema.from_dict c3_bad_dict = Except.ok c3_bad_schema
    ∧ schema_well_formed c3_bad_schema = false
    ∧ c3_bad_schema.get_slide "slide_one" = some c3_bad_slide
    ∧ c3_bad_schema.all_data_keys = ["nodot", "alsonodot"]
    ∧ TemplateSchema.from_dict (J.obj []) = Except.error PyErr.keyError
    ∧ TemplateSchema.from_dict c3_bad_enum_dict = Except.error PyErr.valueError := by
  refine ⟨rfl, rfl, rfl, rfl, rfl, rfl⟩

/-- Inversion for mapM over Except: every element of a successful result
comes from applying f to some element of the input list. -/
theorem mapM_ok_mem {α β : Type} (f : α → Except PyErr β) (l : List α)
    (ys : List β) (h : l.mapM f = .ok ys) :
    ∀ y ∈ ys, ∃ x ∈ l, f x = .ok y := by
  induction l generalizing ys with
  | nil =>
    have hn : ([] : List β) = ys := Except.ok.inj h
    subst hn
    intro y hy
    exact absurd hy (List.not_mem_nil y)
  | cons a t ih =>
    rw [List.mapM_cons] at h
    simp only [Bind.bind, Except.bind, Pure.pure, Except.pure, pure] at h
    cases hfa : f a with
    | error e => rw [hfa] at h; exact Except.noConfusion h
    | ok y0 =>
      rw [hfa] at h
      cases hmt : t.mapM f with
      | error e => rw [hmt] at h; exact Except.noConfusion h
      | ok ys2 =>
        rw [hmt] at h
        have hys := Except.ok.inj h
        subst hys
        intro y hy
        rcases List.mem_cons.mp hy with h1 | h2
        · exact ⟨a, List.mem_cons_self a t, by rw [hfa, h1]⟩
        · obtain ⟨x, hx, hfx⟩ := ih ys2 hmt y h2
          exact ⟨x, List.mem_cons_of_mem a hx, hfx⟩

/-- Every successful result of the per-series chart data builder has the
category length, whatever the payload holds. -/
theorem build_series_entry_length (payload : Payload) (m : ℕ) (sd : ChartSeries)
    (y : String × List ℚ) (h : build_series_entry payload m sd = .ok y) :
    y.2.length = m := by
  unfold build_series_entry at h
  simp only [Bind.bind, Except.bind, Pure.pure, Except.pure, pure] at h
  cases hv : payload.getv sd.data_key with
  | none =>
    rw [hv] at h
    rw [← Except.ok.inj h]
    simp
  | num x => rw [hv] at h; exact Except.noConfusion h
  | str s =>
    rw [hv] at h
    simp only [pyList] at h
    split at h
    · rename_i h1
      rw [← Except.ok.inj h]
      simp only [List.length_map, List.length_append, List.length_replicate] at h1 ⊢
      omega
    · rename_i h1
      split at h
      · rename_i h2
        rw [← Except.ok.inj h]
        simp only [List.length_map, List.length_take] at h2 ⊢
        omega
      · rename_i h2
        rw [← Except.ok.inj h]
        simp only [List.length_map] at h1 h2 ⊢
        omega
  | list l =>
    rw [hv] at h
    simp only [pyList] at h
    split at h
    · rename_i h1
      rw [← Except.ok.inj h]
      simp only [List.length_map, List.length_append, List.length_replicate] at h1 ⊢
      omega
    · rename_i h1
      split at h
      · rename_i h2
        rw [← Except.ok.inj h]
        simp only [List.length_map, List.length_take] at h2 ⊢
        omega
      · rename_i h2
        rw [← Except.ok.inj h]
        simp only [List.length_map] at h1 h2 ⊢
        omega
  | dict d =>
    rw [hv] at h
    simp only [pyList] at h
    split at h
    · rename_i h1
      rw [← Except.ok.inj h]
      simp only [List.length_map, List.length_append, List.length_replicate] at h1 ⊢
      omega
    · rename_i h1
      split at h
      · rename_i h2
        rw [← Except.ok.inj h]
        simp only [List.length_map, List.length_take] at h2 ⊢
        omega
      · rename_i h2
        rw [← Except.ok.inj h]
        simp only [List.length_map] at h1 h2 ⊢
        omega

/-- C4 (amended): the chart subsystem in charts.py obeys the padding law —
a series whose payload value is absent or a list is emitted as the
spec-side padded series (absent becomes a zero list of the category
length m, a shorter list is right-padded with zeros so its last entries
are 0, a longer one is truncated to m, every entry sanitized), every
padded series has length m, and every chart data it builds has all series
exactly as long as the categories; however the production builder
PPTXBuilder._render_chart does not pad (see the counterexample). -/
theorem c4_series_padding :
    (∀ (payload : Payload) (m : ℕ) (sd : ChartSeries),
       (payload.getv sd.data_key = Value.none
        ∨ ∃ l, payload.getv sd.data_key = Value.list l) →
       build_series_entry payload m sd
         = Except.ok (sd.name, spec_padded_series m (series_lookup payload sd.data_key)))
    ∧ (∀ (m : ℕ) (o : Option (List Value)), (spec_padded_series m o).length = m)
    ∧ (∀ (m : ℕ) (l : List Value), l.length < m →
        (spec_padded_series m (some l)).drop l.length
          = List.replicate (m - l.length) (0 : ℚ))
    ∧ (∀ (slot : DataSlot) (payload : Payload) (cd : ChartData),
        build_category_chart_data slot payload = Except.ok (some cd) →
        ∀ p ∈ cd.series, p.2.length = cd.categories.length) := by
  refine ⟨?_, ?_, ?_, ?_⟩
  · intro payload m sd h
    rcases h with h | ⟨l, h⟩
    · simp [build_series_entry, series_lookup, h, spec_padded_series,
        List.map_replicate, safe_value, Bind.bind, Except.bind,
        Pure.pure, Except.pure, pure]
    · simp only [build_series_entry, series_lookup, h, pyList, Bind.bind,
        Except.bind, Pure.pure, Except.pure, pure]
      split
      · rename_i h1
        simp only [spec_padded_series]
        rw [if_pos h1]
        simp [List.map_append, List.map_replicate, safe_value]
      · rename_i h1
        split
        · rename_i h2
          simp only [spec_padded_series]
          rw [if_neg h1]
        · rename_i h2
          have hm : l.length = m := le_antisymm (not_lt.mp h2) (not_lt.mp h1)
          simp only [spec_padded_series]
          rw [if_neg h1, ← hm, List.take_length]
  · intro m o
    cases o with
    | none => simp [spec_padded_series]
    | some l =>
      by_cases h1 : l.length < m
      · simp only [spec_padded_series, if_pos h1, List.length_append,
          List.length_map, List.length_replicate]
        omega
      · simp only [spec_padded_series, if_neg h1, List.length_map,
          List.length_take]
        omega
  · intro m l h1
    simp only [spec_padded_series, if_pos h1]
    have hd := List.drop_left (l.map safe_value)
      (List.replicate (m - l.length) (0 : ℚ))
    rw [List.length_map] at hd
    exact hd
  · intro slot payload cd h
    unfold build_category_chart_data at h
    cases hck : slot.categories_key with
    | none =>
      rw [hck] at h
      exact Option.noConfusion (Except.ok.inj h)
    | some ck =>
      rw [hck] at h
      simp only [Bind.bind, Except.bind, Pure.pure, Except.pure, pure] at h
      split at h
      · exact Option.noConfusion (Except.ok.inj h)
      · split at h
        · exact Option.noConfusion (Except.ok.inj h)
        · split at h
          · exact Option.noConfusion (Except.ok.inj h)
          · cases hv : payload.getv ck with
            | none => rw [hv] at h; exact Except.noConfusion h
            | num x => rw [hv] at h; exact Except.noConfusion h
            | str s =>
              rw [hv] at h
              simp only [pyLen, pyList] at h
              cases hs : build_series_list payload s.length slot.series with
              | error e => rw [hs] at h; exact Except.noConfusion h
              | ok ser =>
                rw [hs] at h
                have hcd := Option.some.inj (Except.ok.inj h)
                subst hcd
                intro p hp
                obtain ⟨x, hx, hfx⟩ := mapM_ok_mem (build_series_entry payload s.length)
                  slot.series ser hs p hp
                have hlen := build_series_entry_length payload s.length x p hfx
                simp only [List.length_map]
                rw [hlen]
                rfl
            | list l =>
              rw [hv] at h
              simp only [pyLen, pyList] at h
              cases hs : build_series_list payload l.length slot.series with
              | error e => rw [hs] at h; exact Except.noConfusion h
              | ok ser =>
                rw [hs] at h
                have hcd := Option.some.inj (Except.ok.inj h)
                subst hcd
                intro p hp
                obtain ⟨x, hx, hfx⟩ := mapM_ok_mem (build_series_entry payload l.length)
                  slot.series ser hs p hp
                exact build_series_entry_length payload l.length x p hfx
            | dict d =>
              rw [hv] at h
              simp only [pyLen, pyList] at h
              cases hs : build_series_list payload d.length slot.series with
              | error e => rw [hs] at h; exact Except.noConfusion h
              | ok ser =>
                rw [hs] at h
                have hcd := Option.some.inj (Except.ok.inj h)
                subst hcd
                intro p hp
                obtain ⟨x, hx, hfx⟩ := mapM_ok_mem (build_series_entry payload d.length)
                  slot.series ser hs p hp
                have hlen := build_series_entry_length payload d.length x p hfx
                simp only [List.length_map]
                rw [hlen]

/-- C4 counterexample: the production builder renders the series of a
two-category chart with its raw payload length of one, unpadded. -/
theorem c4_builder_no_padding_cex :
    chart_series_lengths (render_chart {} c4_cex_slot c4_cex_payload) = [[1]]
    ∧ pyLen (c4_cex_payload.getv "c.cats") = Except.ok 2
    ∧ (1 : ℕ) ≠ 2 := ⟨rfl, rfl, by decide⟩

/-- C4 witness: on the three-series slot the short series comes back
right-padded to three entries, the padded series always have the category
length, the padding suffix is zero, and the built chart data's series
match its three categories. -/
theorem c4_series_padding_witness :
    build_series_entry c4_payload 3 { name := "s2", data_key := "c.s2" }
      = Except.ok ("s2", ([1, 2, 0] : List ℚ))
    ∧ (spec_padded_series 3 (series_lookup c4_payload "c.s2")).length = 3
    ∧ (spec_padded_series 3
        (some [Value.num (PyFloat.fin 1), Value.num (PyFloat.fin 2)])).drop 2
        = List.replicate 1 (0 : ℚ)
    ∧ ([1, 2, 0] : List ℚ).length = 3 := by
  refine ⟨?_, ?_, ?_, ?_⟩
  · exact (c4_series_padding.1 c4_payload 3 { name := "s2", data_key := "c.s2" }
      (Or.inr ⟨_, rfl⟩)).trans rfl
  · exact c4_series_padding.2.1 3 (series_lookup c4_payload "c.s2")
  · exact c4_series_padding.2.2.1 3
      [Value.num (PyFloat.fin 1), Value.num (PyFloat.fin 2)] (by decide)
  · exact (c4_series_padding.2.2.2 c4_slot c4_payload c4_chart_data rfl
      ("s2", ([1, 2, 0] : List ℚ)) (by decide)).trans rfl

/-- Every format kind succeeds on a finite numeric value. -/
theorem format_value_fin_ok (q : ℚ) (ft : FormatType) :
    ∃ s, format_value (Value.num (PyFloat.fin q)) ft = .ok s := by
  cases ft
  case currency =>
    simp only [format_value, format_currency, is_missing, Bool.false_eq_true,
      if_false, reduceIte]
    split_ifs <;> exact ⟨_, rfl⟩
  case number =>
    simp only [format_value, format_number, is_missing, Bool.false_eq_true,
      if_false, reduceIte]
    split_ifs <;> exact ⟨_, rfl⟩
  all_goals exact ⟨_, rfl⟩

/-- Every format kind but integer succeeds on positive infinity. -/
theorem format_value_inf_ok (ft : FormatType) (h : ft ≠ FormatType.integer) :
    ∃ s, format_value (Value.num PyFloat.inf) ft = .ok s := by
  cases ft
  case integer => exact absurd rfl h
  all_goals exact ⟨_, rfl⟩

/-- Every format kind but integer succeeds on negative infinity. -/
theorem format_value_ninf_ok (ft : FormatType) (h : ft ≠ FormatType.integer) :
    ∃ s, format_value (Value.num PyFloat.ninf) ft = .ok s := by
  cases ft
  case integer => exact absurd rfl h
  all_goals exact ⟨_, rfl⟩

/-- Variance coloring succeeds on every float value. -/
theorem variance_color_num_ok (pf : PyFloat) (p n u : String) :
    ∃ c, variance_color (Value.num pf) p n u = .ok c := by
  cases pf
  case fin q =>
    simp only [variance_color, is_missing, Bool.false_eq_true, if_false,
      reduceIte]
    split_ifs <;> exact ⟨_, rfl⟩
  all_goals exact ⟨_, rfl⟩

/-- A table data cell renders without raising whenever its looked-up value
passes the cell compatibility test. -/
theorem table_data_cell_ok (design : DesignSystem) (col : TableColumn)
    (d : List (String × Value))
    (h : cell_ok col.format_rule ((List.lookup col.data_key d).getD Value.none) = true) :
    ∃ cell, table_data_cell design col (Value.dict d) = .ok cell := by
  unfold table_data_cell
  simp only [pyDictGet, Bind.bind, Except.bind, Pure.pure, Except.pure, pure]
  generalize hvv : (List.lookup col.data_key d).getD Value.none = v at h ⊢
  cases hfr : col.format_rule with
  | none =>
    rw [hfr] at h
    cases hm : is_missing v with
    | true =>
      simp only [format_slot_value, hm, reduceIte]
      exact ⟨_, rfl⟩
    | false =>
      simp only [format_slot_value, hm, Bool.false_eq_true, if_false, reduceIte]
      exact ⟨_, rfl⟩
  | some fr =>
    rw [hfr] at h
    simp only [cell_ok, Bool.and_eq_true] at h
    obtain ⟨h1, h2⟩ := h
    cases hm : is_missing v with
    | true =>
      simp only [format_slot_value, hm, reduceIte, Bool.not_true,
        Bool.false_eq_true, if_false, ite_self]
      exact ⟨_, rfl⟩
    | false =>
      cases v with
      | none => simp [is_missing] at hm
      | num pf =>
        cases pf with
        | nan => simp [is_missing] at hm
        | fin q =>
          obtain ⟨s, hs⟩ := format_value_fin_ok q fr.format_type
          simp only [format_slot_value, hm, Bool.false_eq_true, if_false,
            reduceIte, hs]
          by_cases hvt : (fr.format_type == FormatType.variance_percentage
              || fr.format_type == FormatType.points_change) = true
          · rw [if_pos hvt]
            obtain ⟨c, hc⟩ := variance_color_num_ok (PyFloat.fin q)
              fr.positive_color fr.negative_color fr.neutral_color
            simp only [hm, Bool.not_false, reduceIte, hc]
            exact ⟨_, rfl⟩
          · rw [if_neg hvt]
            exact ⟨_, rfl⟩
        | inf =>
          simp only [bne_iff_ne, ne_eq] at h1
          obtain ⟨s, hs⟩ := format_value_inf_ok fr.format_type h1
          simp only [format_slot_value, hm, Bool.false_eq_true, if_false,
            reduceIte, hs]
          by_cases hvt : (fr.format_type == FormatType.variance_percentage
              || fr.format_type == FormatType.points_change) = true
          · rw [if_pos hvt]
            obtain ⟨c, hc⟩ := variance_color_num_ok PyFloat.inf
              fr.positive_color fr.negative_color fr.neutral_color
            simp only [hm, Bool.not_false, reduceIte, hc]
            exact ⟨_, rfl⟩
          · rw [if_neg hvt]
            exact ⟨_, rfl⟩
        | ninf =>
          simp only [bne_iff_ne, ne_eq] at h1
          obtain ⟨s, hs⟩ := format_value_ninf_ok fr.format_type h1
          simp only [format_slot_value, hm, Bool.false_eq_true, if_false,
            reduceIte, hs]
          by_cases hvt : (fr.format_type == FormatType.variance_percentage
              || fr.format_type == FormatType.points_change) = true
          · rw [if_pos hvt]
            obtain ⟨c, hc⟩ := variance_color_num_ok PyFloat.ninf
              fr.positive_color fr.negative_color fr.neutral_color
            simp only [hm, Bool.not_false, reduceIte, hc]
            exact ⟨_, rfl⟩
          · rw [if_neg hvt]
            exact ⟨_, rfl⟩
      | str s =>
        by_cases hvt : (fr.format_type == FormatType.variance_percentage
            || fr.format_type == FormatType.points_change) = true
        · rw [if_pos hvt] at h2
          simp at h2
        · simp only [format_slot_value, hm, Bool.false_eq_true, if_false,
            reduceIte, format_value]
          rw [if_neg hvt]
          exact ⟨_, rfl⟩
      | list l =>
        simp only [beq_iff_eq] at h1
        simp only [format_slot_value, hm, Bool.false_eq_true, if_false,
          reduceIte, h1, format_value]
        exact ⟨_, rfl⟩
      | dict dd =>
        simp only [beq_iff_eq] at h1
        simp only [format_slot_value, hm, Bool.false_eq_true, if_false,
          reduceIte, h1, format_value]
        exact ⟨_, rfl⟩

/-- C6: rendering a table slot whose row-data key resolves to a non-empty
list of k compatible row dictionaries, with at least one declared column,
yields a table of exactly k + 1 cell rows (header plus data) with
len(columns) columns in every row and as the declared column count; a
falsy row-data value or an empty column list instead falls back to a text
box, never a zero-row table. -/
theorem c6_table_grid :
    (∀ (design : DesignSystem) (slot : DataSlot) (payload : Payload)
       (rows : List Value),
      table_rows_value slot payload = Value.list rows →
      rows ≠ [] →
      slot.columns ≠ [] →
      (∀ row ∈ rows, ∃ d, row = Value.dict d ∧
        ∀ col ∈ slot.columns,
          cell_ok col.format_rule ((List.lookup col.data_key d).getD Value.none) = true) →
      ∃ t : TableShape, render_table design slot payload = Except.ok (Shape.table t)
        ∧ t.cells.length = rows.length + 1
        ∧ t.ncols = slot.columns.length
        ∧ ∀ r ∈ t.cells, r.length = slot.columns.length)
    ∧ (∀ (design : DesignSystem) (slot : DataSlot) (payload : Payload),
        (table_rows_value slot payload).truthy = false ∨ slot.columns = [] →
        ∃ tb, render_table design slot payload = Except.ok (Shape.textbox tb)) := by
  constructor
  · intro design slot payload rows hrows hne hcols hcells
    have hce : slot.columns.isEmpty = false := by
      cases hc : slot.columns with
      | nil => exact absurd hc hcols
      | cons a t => rfl
    have hdata : ∃ data, table_data_rows design slot.columns rows = .ok data
        ∧ data.length = rows.length
        ∧ ∀ r ∈ data, r.length = slot.columns.length := by
      unfold table_data_rows
      have helem : ∀ row ∈ rows, ∃ cs,
          slot.columns.mapM (fun col => table_data_cell design col row) = .ok cs
          ∧ cs.length = slot.columns.length := by
        intro row hrow
        obtain ⟨d, rfl, hcellok⟩ := hcells row hrow
        obtain ⟨cs, hcs, hcslen, -⟩ := mapM_ok_exists
          (fun col => table_data_cell design col (Value.dict d)) (fun _ => True)
          slot.columns (fun col hcol => by
            obtain ⟨cell, hcell⟩ := table_data_cell_ok design col d (hcellok col hcol)
            exact ⟨cell, hcell, trivial⟩)
        exact ⟨cs, hcs, hcslen⟩
      obtain ⟨ys, hys, hlen, hall⟩ := mapM_ok_exists
        (fun row => slot.columns.mapM (fun col => table_data_cell design col row))
        (fun r => r.length = slot.columns.length) rows
        (fun row hrow => by
          obtain ⟨cs, hcs, hcslen⟩ := helem row hrow
          exact ⟨cs, hcs, hcslen⟩)
      exact ⟨ys, hys, hlen, hall⟩
    obtain ⟨data, hd, hdlen, hdall⟩ := hdata
    rcases rows with _ | ⟨r0, rtl⟩
    · exact absurd rfl hne
    · simp only [render_table, hrows, hce, Value.truthy, List.isEmpty_cons,
        Bool.not_true, Bool.or_false, Bool.false_eq_true, if_false, reduceIte,
        pyLen, pyList, Bind.bind, Except.bind, Pure.pure, Except.pure, pure]
      rw [hd]
      refine ⟨_, rfl, ?_, rfl, ?_⟩
      · simp [hdlen]
      · intro r hr
        rcases List.mem_cons.mp hr with h1 | h2
        · subst h1
          simp
        · exact hdall r h2
  · intro design slot payload h
    have hcond : (!(table_rows_value slot payload).truthy || slot.columns.isEmpty)
        = true := by
      rcases h with h | h
      · simp [h]
      · simp [h]
    simp only [render_table, hcond, reduceIte]
    exact ⟨_, rfl⟩

/-- C6 witness: the two-row, two-column table slot renders a three-row,
two-column grid, and the same slot over an empty payload falls back to a
text box. -/
theorem c6_table_grid_witness :
    (∃ t : TableShape, render_table {} c6_slot c6_payload = Except.ok (Shape.table t)
      ∧ t.cells.length = 3 ∧ t.ncols = 2 ∧ ∀ r ∈ t.cells, r.length = 2)
    ∧ ∃ tb, render_table {} c6_slot [] = Except.ok (Shape.textbox tb) := by
  constructor
  · obtain ⟨t, h1, h2, h3, h4⟩ := c6_table_grid.1 {} c6_slot c6_payload
      [Value.dict [("rev", Value.num (PyFloat.fin 209200)),
                   ("delta", Value.num (PyFloat.fin (mkRat 26 5)))],
       Value.dict [("rev", Value.num (PyFloat.fin 1000)),
                   ("delta", Value.num (PyFloat.fin (-3)))]]
      rfl (List.cons_ne_nil _ _) (List.cons_ne_nil _ _)
      (by intro row hrow
          simp only [List.mem_cons, List.not_mem_nil, or_false] at hrow
          rcases hrow with rfl | rfl
          · exact ⟨_, rfl, by decide⟩
          · exact ⟨_, rfl, by decide⟩)
    exact ⟨t, h1, h2.trans rfl, h3.trans rfl, fun r hr => (h4 r hr).trans rfl⟩
  · exact c6_table_grid.2 {} c6_slot [] (Or.inl rfl)

end PB
